import Mathlib

/-!
Verification development for the `waystar-bq-load` FTP-log ingestion pipeline
(`cloud_function/main.py`).  The Python source is shallowly embedded: Python
dictionaries become association lists of `JsonValue`s, BigQuery clients become
explicit sink functions returning either an exception or a list of row errors,
`datetime.utcnow()` call sites become explicit `PyDateTime` parameters, and
exceptions become `Except` values.  Floating-point quantities (the
`processing_duration_seconds` ledger field) are modelled at integer-second
granularity; JSON numbers are modelled as integers.
-/

namespace FtpLog

/-- Characters written via code points to keep source text plain ASCII. -/
def quoteChar : Char := Char.ofNat 39

def dquoteChar : Char := Char.ofNat 34

def bslashChar : Char := Char.ofNat 92

def lbraceChar : Char := Char.ofNat 123

def rbraceChar : Char := Char.ofNat 125

/-- Model of a Python value as produced by `json.loads`: JSON null, booleans,
(integer) numbers, strings, arrays and objects.  Python `None` is identified
with JSON null. -/
inductive JsonValue where
  | null : JsonValue
  | bool : Bool → JsonValue
  | num : Int → JsonValue
  | str : String → JsonValue
  | arr : List JsonValue → JsonValue
  | obj : List (String × JsonValue) → JsonValue

/-- A Python dictionary with string keys, as an association list (keys unique,
in insertion order, as guaranteed by the JSON object construction below). -/
abbrev Dict := List (String × JsonValue)

/-- Python truthiness test (`not x`): `None`, `False`, `0`, empty string,
empty list and empty dict are falsy. -/
def pyFalsy : JsonValue → Bool
  | .null => true
  | .bool b => !b
  | .num n => n == 0
  | .str s => s.isEmpty
  | .arr l => l.isEmpty
  | .obj m => m.isEmpty

/-- Escape one character the way Python `repr` renders it inside a
single-quoted string literal (backslash, quote and common control chars;
other characters are kept verbatim). -/
def reprEscapeChar (c : Char) : List Char :=
  if c = bslashChar then [bslashChar, bslashChar]
  else if c = quoteChar then [bslashChar, quoteChar]
  else if c = '\n' then [bslashChar, 'n']
  else if c = '\r' then [bslashChar, 'r']
  else if c = '\t' then [bslashChar, 't']
  else [c]

/-- Python `repr` of a string: single-quoted with escapes. -/
def pyStrLitRepr (s : String) : String :=
  String.mk ([quoteChar] ++ s.data.flatMap reprEscapeChar ++ [quoteChar])

mutual

/-- Python `repr` of a value (used for elements inside containers). -/
def pyRepr : JsonValue → String
  | .null => "None"
  | .bool b => if b then "True" else "False"
  | .num n => toString n
  | .str s => pyStrLitRepr s
  | .arr l => "[" ++ String.intercalate ", " (pyReprElems l) ++ "]"
  | .obj m =>
      String.mk [lbraceChar] ++ String.intercalate ", " (pyReprMembers m) ++
        String.mk [rbraceChar]

/-- Helper for `pyRepr`: render the elements of a Python list. -/
def pyReprElems : List JsonValue → List String
  | [] => []
  | v :: vs => pyRepr v :: pyReprElems vs

/-- Helper for `pyRepr`: render the members of a Python dict. -/
def pyReprMembers : List (String × JsonValue) → List String
  | [] => []
  | (k, v) :: ms => (pyStrLitRepr k ++ ": " ++ pyRepr v) :: pyReprMembers ms

end

/-- Python `str()` of a value: strings render verbatim, scalars as in Python,
containers via `repr` of their elements. -/
def pyStr : JsonValue → String
  | .str s => s
  | v => pyRepr v

/-- UTF-8 encoding of a single character (as byte values). -/
def encodeUtf8Char (c : Char) : List Nat :=
  let n := c.toNat
  if n < 128 then [n]
  else if n < 2048 then [192 + n / 64, 128 + n % 64]
  else if n < 65536 then [224 + n / 4096, 128 + (n / 64) % 64, 128 + n % 64]
  else [240 + n / 262144, 128 + (n / 4096) % 64, 128 + (n / 64) % 64, 128 + n % 64]

/-- UTF-8 encoding of a string (Python `s.encode("utf-8")`). -/
def encodeUtf8 (s : String) : List Nat := s.data.flatMap encodeUtf8Char

/-! SHA-256 (FIPS 180-4), over byte lists, with 32-bit words as `Nat` reduced
modulo `2 ^ 32`.  This models Python `hashlib.sha256`. -/

/-- Reduce to a 32-bit word. -/
def w32 (n : Nat) : Nat := n % 4294967296

/-- Right rotation of a 32-bit word. -/
def rotr (n x : Nat) : Nat := w32 ((x >>> n) ||| (x <<< (32 - n)))

def shaCh (e f g : Nat) : Nat := (e &&& f) ^^^ ((4294967295 - e) &&& g)

def shaMaj (a b c : Nat) : Nat := (a &&& b) ^^^ (a &&& c) ^^^ (b &&& c)

def bsig0 (x : Nat) : Nat := rotr 2 x ^^^ rotr 13 x ^^^ rotr 22 x

def bsig1 (x : Nat) : Nat := rotr 6 x ^^^ rotr 11 x ^^^ rotr 25 x

def ssig0 (x : Nat) : Nat := rotr 7 x ^^^ rotr 18 x ^^^ (x >>> 3)

def ssig1 (x : Nat) : Nat := rotr 17 x ^^^ rotr 19 x ^^^ (x >>> 10)

/-- SHA-256 round constants. -/
def sha256K : List Nat :=
  [1116352408, 1899447441, 3049323471, 3921009573, 961987163,
   1508970993, 2453635748, 2870763221, 3624381080, 310598401,
   607225278, 1426881987, 1925078388, 2162078206, 2614888103,
   3248222580, 3835390401, 4022224774, 264347078, 604807628,
   770255983, 1249150122, 1555081692, 1996064986, 2554220882,
   2821834349, 2952996808, 3210313671, 3336571891, 3584528711,
   113926993, 338241895, 666307205, 773529912, 1294757372,
   1396182291, 1695183700, 1986661051, 2177026350, 2456956037,
   2730485921, 2820302411, 3259730800, 3345764771, 3516065817,
   3600352804, 4094571909, 275423344, 430227734, 506948616,
   659060556, 883997877, 958139571, 1322822218, 1537002063,
   1747873779, 1955562222, 2024104815, 2227730452, 2361852424,
   2428436474, 2756734187, 3204031479, 3329325298]

/-- SHA-256 initial hash value. -/
def sha256Init : List Nat :=
  [1779033703, 3144134277, 1013904242, 2773480762,
   1359893119, 2600822924, 528734635, 1541459225]

/-- Big-endian byte rendering of `n` on `k` bytes. -/
def toBytesBE : Nat → Nat → List Nat
  | 0, _ => []
  | k + 1, n => toBytesBE k (n / 256) ++ [n % 256]

/-- SHA-256 message padding: append `0x80`, zero bytes, and the bit length on
eight bytes, reaching a multiple of 64 bytes. -/
def padMessage (msg : List Nat) : List Nat :=
  let l := msg.length
  msg ++ 128 :: List.replicate ((64 + 55 - (l % 64)) % 64) 0 ++ toBytesBE 8 (8 * l)

/-- Split a byte list into 64-byte blocks. -/
def toBlocks (l : List Nat) : List (List Nat) :=
  if h : l = [] then [] else (l.take 64) :: toBlocks (l.drop 64)
termination_by l.length
decreasing_by
  simp only [List.length_drop]
  have : 0 < l.length := List.length_pos.mpr h
  omega

/-- Combine bytes into big-endian 32-bit words. -/
def bytesToWords : List Nat → List Nat
  | a :: b :: c :: d :: rest => (a * 16777216 + b * 65536 + c * 256 + d) :: bytesToWords rest
  | _ => []

/-- Extend the 16-word block to the 64-word message schedule. -/
def extendSchedule : Nat → List Nat → List Nat
  | 0, w => w
  | n + 1, w =>
      let t := w32 (ssig1 (w.getD (w.length - 2) 0) + w.getD (w.length - 7) 0 +
        ssig0 (w.getD (w.length - 15) 0) + w.getD (w.length - 16) 0)
      extendSchedule n (w ++ [t])

/-- One SHA-256 compression round on the eight-word working state. -/
def roundFn (st : List Nat) (k w : Nat) : List Nat :=
  match st with
  | [a, b, c, d, e, f, g, h] =>
      let t1 := w32 (h + bsig1 e + shaCh e f g + k + w)
      let t2 := w32 (bsig0 a + shaMaj a b c)
      [w32 (t1 + t2), a, b, c, w32 (d + t1), e, f, g]
  | other => other

/-- Compress one 64-byte block into the running hash. -/
def compressBlock (H : List Nat) (block : List Nat) : List Nat :=
  let w := extendSchedule 48 (bytesToWords block)
  let st := (List.zip sha256K w).foldl (fun s kw => roundFn s kw.1 kw.2) H
  List.zipWith (fun x y => w32 (x + y)) H st

/-- SHA-256 digest of a byte list, as eight 32-bit words. -/
def sha256Words (msg : List Nat) : List Nat :=
  (toBlocks (padMessage msg)).foldl compressBlock sha256Init

/-- Lower-case hex digit. -/
def hexChar (n : Nat) : Char :=
  if n < 10 then Char.ofNat (48 + n) else Char.ofNat (87 + n)

/-- Hex rendering of `n` on `k` nibbles, most significant first. -/
def toHexNibbles : Nat → Nat → List Char
  | 0, _ => []
  | k + 1, n => toHexNibbles k (n / 16) ++ [hexChar (n % 16)]

/-- Hex digest string of a SHA-256 result. -/
def sha256hex (msg : List Nat) : String :=
  String.join ((sha256Words msg).map (fun wd => String.mk (toHexNibbles 8 wd)))

/-! Fingerprint function (`compute_hash_fingerprint` in `main.py`). -/

/-- Python `data.get(k)`: the value under `k`, or `None` when absent. -/
def dictGet (d : Dict) (k : String) : JsonValue :=
  (List.lookup k d).getD JsonValue.null

/-- Model of Python `str(x or "")`: falsy values collapse to the empty string,
truthy values render via `str`. -/
def strOrEmpty (v : JsonValue) : String :=
  if pyFalsy v then "" else pyStr v

/-- The canonical string hashed by `compute_hash_fingerprint`: the five
canonical fields, in source order, joined with a pipe. -/
def canonicalFingerprintInput (d : Dict) : String :=
  String.intercalate "|"
    [strOrEmpty (dictGet d "EventDt"),
     strOrEmpty (dictGet d "Source"),
     strOrEmpty (dictGet d "Filename"),
     strOrEmpty (dictGet d "Bytes"),
     strOrEmpty (dictGet d "UserName")]

/-- `compute_hash_fingerprint(data)` from `main.py`: SHA-256 hex digest of the
UTF-8 encoding of the canonical joined string. -/
def compute_hash_fingerprint (d : Dict) : String :=
  sha256hex (encodeUtf8 (canonicalFingerprintInput d))

/-! Timestamp parsing (`parse_event_timestamp` in `main.py`): Python
`datetime.strptime` restricted to the four ISO-8601 format strings tried by
the source, in source order. -/

/-- A Python `datetime` value. -/
structure PyDateTime where
  year : Nat
  month : Nat
  day : Nat
  hour : Nat
  minute : Nat
  second : Nat
  micro : Nat
deriving DecidableEq

/-- Days in a month, with Gregorian leap years (as `datetime` validates). -/
def daysInMonth (y m : Nat) : Nat :=
  if m = 2 then
    if y % 4 = 0 && (y % 100 ≠ 0 || y % 400 = 0) then 29 else 28
  else if m = 4 || m = 6 || m = 9 || m = 11 then 30
  else 31

/-- Validation performed by the `datetime` constructor (the regex stage of
`strptime` already bounds month, day, hour and minute; seconds up to 61 pass
the regex but are rejected here, as is year 0). -/
def validDateTime (t : PyDateTime) : Bool :=
  decide (1 ≤ t.year) && decide (t.second ≤ 59) && decide (t.day ≤ daysInMonth t.year t.month)

/-- Left-pad a numeral to two digits. -/
def pad2 (n : Nat) : String := if n < 10 then "0" ++ toString n else toString n

/-- Left-pad a numeral to four digits. -/
def pad4 (n : Nat) : String :=
  if n < 10 then "000" ++ toString n
  else if n < 100 then "00" ++ toString n
  else if n < 1000 then "0" ++ toString n
  else toString n

/-- Left-pad a numeral to six digits. -/
def pad6 (n : Nat) : String :=
  let s := toString n
  String.mk (List.replicate (6 - s.length) '0') ++ s

/-- Python `datetime.isoformat()`: `YYYY-MM-DDTHH:MM:SS`, with a six-digit
fractional part appended only when the microsecond field is nonzero. -/
def isoformat (t : PyDateTime) : String :=
  pad4 t.year ++ "-" ++ pad2 t.month ++ "-" ++ pad2 t.day ++ "T" ++
    pad2 t.hour ++ ":" ++ pad2 t.minute ++ ":" ++ pad2 t.second ++
    (if t.micro = 0 then "" else "." ++ pad6 t.micro)

/-- Is the character an ASCII decimal digit. -/
def isDigitChar (c : Char) : Bool := decide ('0' ≤ c) && decide (c ≤ '9')

/-- Numeric value of a digit list (most significant first). -/
def digitsToNat (l : List Char) : Nat :=
  l.foldl (fun a c => a * 10 + (c.toNat - 48)) 0

/-- Match exactly `k` digits (CPython `%Y` uses four). -/
def takeDigitsExact (k : Nat) (cs : List Char) : Option (Nat × List Char) :=
  let ds := cs.take k
  if ds.length = k && ds.all isDigitChar then some (digitsToNat ds, cs.drop k) else none

/-- Match one or two digits with value at most `hi`, greedily, as the CPython
`_strptime` regexes for `%m`, `%d`, `%H`, `%M` and `%S` do: a two-digit match
is preferred and is abandoned (falling back to one digit) only when its value
exceeds `hi`; a one-digit match must also not exceed `hi`. -/
def takeDigits12 (hi : Nat) (cs : List Char) : Option (Nat × List Char) :=
  match cs with
  | c1 :: c2 :: rest =>
      if isDigitChar c1 && isDigitChar c2 then
        let v := digitsToNat [c1, c2]
        if v ≤ hi then some (v, rest)
        else
          let v1 := digitsToNat [c1]
          if v1 ≤ hi then some (v1, c2 :: rest) else none
      else if isDigitChar c1 then
        let v1 := digitsToNat [c1]
        if v1 ≤ hi then some (v1, c2 :: rest) else none
      else none
  | [c1] =>
      if isDigitChar c1 && digitsToNat [c1] ≤ hi then some (digitsToNat [c1], []) else none
  | [] => none

/-- Match `%f`: one to six digits, right-padded with zeros to microseconds. -/
def takeFraction (cs : List Char) : Option (Nat × List Char) :=
  let ds := (cs.take 6).takeWhile isDigitChar
  if ds.isEmpty then none
  else some (digitsToNat ds * 10 ^ (6 - ds.length), cs.drop ds.length)

/-- Match a literal character; `_strptime` compiles its regex with
`IGNORECASE`, so ASCII letters match either case. -/
def takeLit (c : Char) (cs : List Char) : Option (List Char) :=
  match cs with
  | x :: rest =>
      if x = c || (c.isAlpha && x.isAlpha && x.toLower = c.toLower) then some rest else none
  | [] => none

/-- The four format strings tried by `parse_event_timestamp`, abstracted by
whether they contain `.%f` and a trailing `Z`. -/
structure IsoFmt where
  withFrac : Bool
  withZ : Bool

/-- The source list `formats`, in order. -/
def strptimeFormats : List IsoFmt :=
  [⟨false, false⟩, ⟨true, false⟩, ⟨false, true⟩, ⟨true, true⟩]

/-- Model of `datetime.strptime(s, fmt)` for the four ISO formats: parse
`%Y-%m-%dT%H:%M:%S`, then the optional fragments, require the input to be
fully consumed, and validate via the `datetime` constructor.  `none` stands
for the `ValueError` caught by the source. -/
def strptimeIso (fmt : IsoFmt) (s : String) : Option PyDateTime := do
  let cs := s.data
  let (y, cs) ← takeDigitsExact 4 cs
  let cs ← takeLit '-' cs
  let (mo, cs) ← takeDigits12 12 cs
  if mo = 0 then none else
  let cs ← takeLit '-' cs
  let (d, cs) ← takeDigits12 31 cs
  if d = 0 then none else
  let cs ← takeLit 'T' cs
  let (h, cs) ← takeDigits12 23 cs
  let cs ← takeLit ':' cs
  let (mi, cs) ← takeDigits12 59 cs
  let cs ← takeLit ':' cs
  let (sec, cs) ← takeDigits12 61 cs
  let (f, cs) ← if fmt.withFrac then do
      let cs ← takeLit '.' cs
      takeFraction cs
    else pure (0, cs)
  let cs ← if fmt.withZ then takeLit 'Z' cs else pure cs
  if cs = [] then
    let t : PyDateTime := ⟨y, mo, d, h, mi, sec, f⟩
    if validDateTime t then some t else none
  else none

/-- First format in the list that parses the string. -/
def tryFormats : List IsoFmt → String → Option PyDateTime
  | [], _ => none
  | fmt :: rest, s =>
      match strptimeIso fmt s with
      | some t => some t
      | none => tryFormats rest s

/-- A Python exception: its type name and its `str()` text. -/
structure PyError where
  kind : String
  msg : String
deriving DecidableEq

/-- Python type name of a value, for exception messages. -/
def pyTypeName : JsonValue → String
  | .null => "NoneType"
  | .bool _ => "bool"
  | .num _ => "int"
  | .str _ => "str"
  | .arr _ => "list"
  | .obj _ => "dict"

/-- The `TypeError` text raised by `strptime` on a non-string argument. -/
def strptimeTypeErrorMsg (v : JsonValue) : String :=
  "strptime() argument 1 must be str, not " ++ pyTypeName v

/-- `parse_event_timestamp(event_dt_str)` from `main.py`, applied to the value
found under `EventDt`: falsy input returns `None`; a string is tried against
the format list in order, with every `ValueError` caught (so total failure
returns `None`); a truthy non-string reaches `strptime` and raises a
`TypeError`, which the source does not catch. -/
def parse_event_timestamp (v : JsonValue) : Except PyError (Option PyDateTime) :=
  if pyFalsy v then .ok none
  else
    match v with
    | .str s => .ok (tryFormats strptimeFormats s)
    | other => .error ⟨"TypeError", strptimeTypeErrorMsg other⟩

/-! Integer coercion (`safe_int` in `main.py`). -/

/-- Python whitespace characters stripped by `str.strip()` (ASCII subset). -/
def isPySpace (c : Char) : Bool :=
  c = ' ' || c = '\t' || c = '\n' || c = '\r' || c = Char.ofNat 11 || c = Char.ofNat 12

/-- Python `int(s)` on a string: surrounding whitespace allowed, optional
sign, then a nonempty digit run (digit-group underscores are not modelled);
`none` stands for the caught `ValueError`. -/
def pyIntOfString (s : String) : Option Int :=
  let cs := (s.data.dropWhile isPySpace).reverse.dropWhile isPySpace |>.reverse
  match cs with
  | [] => none
  | c :: rest =>
      let (neg, ds) := if c = '-' then (true, rest) else if c = '+' then (false, rest) else (false, cs)
      if ds ≠ [] && ds.all isDigitChar then
        let n : Int := Int.ofNat (digitsToNat ds)
        some (if neg then -n else n)
      else none

/-- `safe_int(value)` from `main.py`: `None` for null input, `int(value)`
otherwise with `ValueError`/`TypeError` returning `None`; booleans coerce to
0/1, containers fail. -/
def safe_int : JsonValue → Option Int
  | .null => none
  | .num n => some n
  | .bool b => some (if b then 1 else 0)
  | .str s => pyIntOfString s
  | .arr _ => none
  | .obj _ => none

/-! JSON parsing: an executable model of Python `json.loads` (strict mode),
restricted to integer numerals (a numeral with a fraction or exponent is not
modelled and is reported as a parse failure; the claims under study never
involve floating-point data).  Parsers are fuel-indexed; `jsonLoads` supplies
ample fuel. -/

/-- JSON whitespace skipped between tokens. -/
def isJsonWs (c : Char) : Bool := c = ' ' || c = '\t' || c = '\n' || c = '\r'

/-- Skip JSON whitespace. -/
def skipWs (cs : List Char) : List Char := cs.dropWhile isJsonWs

/-- Value of a hex digit, if any. -/
def hexVal (c : Char) : Option Nat :=
  if isDigitChar c then some (c.toNat - 48)
  else if decide ('a' ≤ c) && decide (c ≤ 'f') then some (c.toNat - 87)
  else if decide ('A' ≤ c) && decide (c ≤ 'F') then some (c.toNat - 55)
  else none

/-- Parse the remainder of a JSON string literal (after the opening quote). -/
def parseStringRest : Nat → List Char → Option (List Char × List Char)
  | 0, _ => none
  | _ + 1, [] => none
  | fuel + 1, c :: rest =>
      if c = dquoteChar then some ([], rest)
      else if c = bslashChar then
        match rest with
        | e :: rest2 =>
            if e = 'u' then
              match rest2 with
              | h1 :: h2 :: h3 :: h4 :: rest3 => do
                  let v1 ← hexVal h1
                  let v2 ← hexVal h2
                  let v3 ← hexVal h3
                  let v4 ← hexVal h4
                  let (tail, rem) ← parseStringRest fuel rest3
                  some (Char.ofNat (((v1 * 16 + v2) * 16 + v3) * 16 + v4) :: tail, rem)
              | _ => none
            else do
              let ch ←
                if e = dquoteChar then some dquoteChar
                else if e = bslashChar then some bslashChar
                else if e = '/' then some '/'
                else if e = 'b' then some (Char.ofNat 8)
                else if e = 'f' then some (Char.ofNat 12)
                else if e = 'n' then some '\n'
                else if e = 'r' then some '\r'
                else if e = 't' then some '\t'
                else none
              let (tail, rem) ← parseStringRest fuel rest2
              some (ch :: tail, rem)
        | [] => none
      else if c.toNat < 32 then none
      else do
        let (tail, rem) ← parseStringRest fuel rest
        some (c :: tail, rem)

/-- Parse a JSON integer numeral (strict JSON grammar; a following `.`, `e`
or `E` signals a floating-point numeral, outside this model). -/
def parseIntLit (cs : List Char) : Option (Int × List Char) :=
  let (neg, cs1) := match cs with
    | '-' :: rest => (true, rest)
    | _ => (false, cs)
  match cs1 with
  | [] => none
  | d :: _ =>
      if !isDigitChar d then none
      else
        let ds := cs1.takeWhile isDigitChar
        let rest := cs1.dropWhile isDigitChar
        if d = '0' && ds.length ≠ 1 then none
        else
          match rest with
          | c :: _ => if c = '.' || c = 'e' || c = 'E' then none else
              some ((if neg then -(Int.ofNat (digitsToNat ds)) else Int.ofNat (digitsToNat ds)), rest)
          | [] => some ((if neg then -(Int.ofNat (digitsToNat ds)) else Int.ofNat (digitsToNat ds)), rest)

/-- Insert a key into a Python dict: overwrite in place if the key exists
(JSON objects keep the last duplicate), else append. -/
def insertPair (d : Dict) (k : String) (v : JsonValue) : Dict :=
  if d.any (fun p => p.1 == k) then
    d.map (fun p => if p.1 == k then (k, v) else p)
  else d ++ [(k, v)]

mutual

/-- Parse one JSON value starting at the given characters. -/
def parseVal : Nat → List Char → Option (JsonValue × List Char)
  | 0, _ => none
  | fuel + 1, cs =>
      match skipWs cs with
      | [] => none
      | c :: rest =>
          if c = 'n' then
            match rest with
            | 'u' :: 'l' :: 'l' :: rem => some (.null, rem)
            | _ => none
          else if c = 't' then
            match rest with
            | 'r' :: 'u' :: 'e' :: rem => some (.bool true, rem)
            | _ => none
          else if c = 'f' then
            match rest with
            | 'a' :: 'l' :: 's' :: 'e' :: rem => some (.bool false, rem)
            | _ => none
          else if c = dquoteChar then do
            let (chars, rem) ← parseStringRest (rest.length + 1) rest
            some (.str (String.mk chars), rem)
          else if c = lbraceChar then
            match skipWs rest with
            | c2 :: rem2 =>
                if c2 = rbraceChar then some (.obj [], rem2)
                else do
                  let (m, rem) ← parseMembers fuel [] (c2 :: rem2)
                  some (.obj m, rem)
            | [] => none
          else if c = '[' then
            match skipWs rest with
            | c2 :: rem2 =>
                if c2 = ']' then some (.arr [], rem2)
                else do
                  let (l, rem) ← parseElems fuel (c2 :: rem2)
                  some (.arr l, rem)
            | [] => none
          else do
            let (n, rem) ← parseIntLit (c :: rest)
            some (.num n, rem)

/-- Parse array elements (at least one) up to the closing bracket. -/
def parseElems : Nat → List Char → Option (List JsonValue × List Char)
  | 0, _ => none
  | fuel + 1, cs => do
      let (v, rem) ← parseVal fuel cs
      match skipWs rem with
      | ',' :: rem2 => do
          let (vs, rem3) ← parseElems fuel rem2
          some (v :: vs, rem3)
      | c :: rem2 => if c = ']' then some ([v], rem2) else none
      | [] => none

/-- Parse object members (at least one) up to the closing brace, building the
dict with last-duplicate-wins insertion as `json.loads` does. -/
def parseMembers : Nat → Dict → List Char → Option (Dict × List Char)
  | 0, _, _ => none
  | fuel + 1, acc, cs =>
      match skipWs cs with
      | c :: rest =>
          if c = dquoteChar then do
            let (kchars, rem) ← parseStringRest (rest.length + 1) rest
            match skipWs rem with
            | ':' :: rem2 => do
                let (v, rem3) ← parseVal fuel rem2
                let acc2 := insertPair acc (String.mk kchars) v
                match skipWs rem3 with
                | ',' :: rem4 => parseMembers fuel acc2 rem4
                | c2 :: rem4 => if c2 = rbraceChar then some (acc2, rem4) else none
                | [] => none
            | _ => none
          else none
      | [] => none

end

/-- Model of `json.loads(line)`: parse one JSON document with nothing but
whitespace around it; `Except.error` stands for the `json.JSONDecodeError`
caught by the source. -/
def jsonLoads (s : String) : Except String JsonValue :=
  match parseVal (s.data.length + 2) s.data with
  | some (v, rem) => if skipWs rem = [] then .ok v else .error "Extra data"
  | none => .error "Expecting value"

/-! The line transformer (`parse_json_line` in `main.py`). -/

/-- The `AttributeError` text raised by `data.get(...)` on a non-dict. -/
def attrErrorMsg (v : JsonValue) : String :=
  String.mk [quoteChar] ++ pyTypeName v ++ String.mk [quoteChar] ++
    " object has no attribute " ++ String.mk [quoteChar] ++ "get" ++ String.mk [quoteChar]

/-- Wrap an optional value the way row dictionaries hold it: `none` is
Python `None`, i.e. null. -/
def optIntVal : Option Int → JsonValue
  | some n => .num n
  | none => .null

/-- The archive row built unconditionally at the top of `parse_json_line`
(`load_time` is the `datetime.utcnow()` taken at entry, here a parameter). -/
def archiveRowOf (load_time : PyDateTime) (line gcs_uri originating_filename : String) : Dict :=
  [("raw_json", .str line),
   ("archived_timestamp", .str (isoformat load_time)),
   ("process_dt", .str (isoformat load_time)),
   ("originating_filename", .str originating_filename),
   ("gcs_uri", .str gcs_uri)]

/-- The base row built by `parse_json_line` from a parsed object `d` and the
already-computed `event_dt` (`StatusCode` is intentionally excluded, as in the
source). -/
def baseRowOf (load_time : PyDateTime) (gcs_uri originating_filename : String)
    (d : Dict) (event_dt : Option PyDateTime) : Dict :=
  [("load_time_dt", .str (isoformat load_time)),
   ("source_file_dt", .str (match event_dt with
      | some t => isoformat t
      | none => isoformat load_time)),
   ("originating_filename", .str originating_filename),
   ("gcs_uri", .str gcs_uri),
   ("action", dictGet d "Action"),
   ("bytes", optIntVal (safe_int (dictGet d "Bytes"))),
   ("cust_id", optIntVal (safe_int (dictGet d "CustId"))),
   ("event_dt", match event_dt with
      | some t => .str (isoformat t)
      | none => .null),
   ("filename", dictGet d "Filename"),
   ("hash_code", optIntVal (safe_int (dictGet d "HashCode"))),
   ("hash_fingerprint", .str (compute_hash_fingerprint d)),
   ("ip_address", dictGet d "IpAddress"),
   ("partner_name", dictGet d "PartnerName"),
   ("session_id", dictGet d "SessionId"),
   ("source", dictGet d "Source"),
   ("user_name", dictGet d "UserName"),
   ("server_response", dictGet d "ServerResponse"),
   ("raw_data", dictGet d "RawData")]

/-- `parse_json_line(line, gcs_uri, originating_filename)` from `main.py`.
The archive row is always built first; a `json.JSONDecodeError` is caught and
yields `(None, archive_row)`; but a line whose JSON is a non-dict raises
`AttributeError` at `data.get("EventDt")`, and a truthy non-string `EventDt`
raises `TypeError` inside `parse_event_timestamp` — neither is caught. -/
def parse_json_line (load_time : PyDateTime) (line gcs_uri originating_filename : String) :
    Except PyError (Option Dict × Dict) :=
  let archive_row := archiveRowOf load_time line gcs_uri originating_filename
  match jsonLoads line with
  | .error _ => .ok (none, archive_row)
  | .ok data =>
      match data with
      | .obj d =>
          match parse_event_timestamp (dictGet d "EventDt") with
          | .error e => .error e
          | .ok event_dt =>
              .ok (some (baseRowOf load_time gcs_uri originating_filename d event_dt), archive_row)
      | nonDict => .error ⟨"AttributeError", attrErrorMsg nonDict⟩

/-! File-processor helpers: line splitting, filename extraction, path filter. -/

/-- Python `str.strip()` (ASCII whitespace). -/
def pyStrip (s : String) : String :=
  String.mk ((s.data.dropWhile isPySpace).reverse.dropWhile isPySpace |>.reverse)

/-- Python `s.split("\n")` at character level: split on every newline,
keeping empty fragments (so `n` newlines yield `n + 1` fragments). -/
def splitNl : List Char → List (List Char)
  | [] => [[]]
  | c :: rest =>
      match splitNl rest with
      | [] => [[]]
      | l :: ls => if c = '\n' then [] :: l :: ls else (c :: l) :: ls

/-- The line enumeration in `process_ftplog`: strip the whole content, split
on newline, strip each line, keep the non-blank ones. -/
def splitLines (content : String) : List String :=
  (((splitNl (pyStrip content).data).map (fun cs => pyStrip (String.mk cs))).filter
    (fun l => l ≠ ""))

/-- Python `s.endswith(suffix)`. -/
def pyEndsWith (s suffix : String) : Bool :=
  suffix.data.isSuffixOf s.data

/-- Drop the last `n` elements of a list. -/
def dropRightN (n : Nat) (l : List Char) : List Char := l.take (l.length - n)

/-- Match of `re.search(r"/([^/]+)\.json$", uri)` against a candidate end
position: the text must end with `.json`, and the maximal `/`-free segment
before it must be nonempty and preceded by a `/`. -/
def extractFromCore (cs : List Char) : Option (List Char) :=
  if ".json".data.isSuffixOf cs then
    let rest := dropRightN 5 cs
    let seg := (rest.reverse.takeWhile (fun c => c ≠ '/')).reverse
    if seg.length ≠ 0 && seg.length < rest.length then some seg else none
  else none

/-- `extract_originating_filename(gcs_uri)` from `main.py`: the regex anchor
`$` matches at the end of the string or just before one trailing newline. -/
def extract_originating_filename (gcs_uri : String) : String :=
  match extractFromCore gcs_uri.data with
  | some seg => String.mk seg
  | none =>
      match gcs_uri.data.getLast? with
      | some c =>
          if c = '\n' then
            match extractFromCore gcs_uri.data.dropLast with
            | some seg => String.mk seg
            | none => "unknown"
          else "unknown"
      | none => "unknown"

/-- Configuration defaults from `main.py` (environment variables unset). -/
def GCS_LOGS_PREFIX : String := "logs"

def PROJECT_ID : String := "your-gcp-project-id"

def DATASET_ID : String := "logviewer"

def FQ_BASE_TABLE : String := PROJECT_ID ++ "." ++ DATASET_ID ++ "." ++ "base_ftplog"

def FQ_ARCHIVE_TABLE : String := PROJECT_ID ++ "." ++ DATASET_ID ++ "." ++ "archive_ftplog"

def FQ_PROCESSED_TABLE : String := PROJECT_ID ++ "." ++ DATASET_ID ++ "." ++ "processed_files"

/-- One anchored-at-end match of `FILE_PATTERN`, i.e. of
`^logs/.*\.json$` against a full candidate text: starts with `logs/`, ends
with `.json`, and the `.*` middle contains no newline (Python `.` does not
match newline). -/
def matchesCore (cs : List Char) : Bool :=
  "logs/".data.isPrefixOf cs && ".json".data.isSuffixOf cs &&
    decide (10 ≤ cs.length) && ((dropRightN 5 (cs.drop 5)).all (fun c => c ≠ '\n'))

/-- Semantics of `re.match(FILE_PATTERN, name)` with the default
configuration: `$` (without `MULTILINE`) matches at the end of the string or
just before a single trailing newline. -/
def filePatternMatch (name : String) : Bool :=
  matchesCore name.data ||
    (name.data.getLast? == some '\n' && matchesCore name.data.dropLast)

/-! Load dispatch and ledger (`load_to_bigquery`, `is_already_processed`,
`process_ftplog` in `main.py`). -/

/-- A BigQuery client's `insert_rows_json`, as a deterministic function from
table id and rows to either a raised exception or a list of row errors (an
empty list is success). -/
def Sink : Type := String → List Dict → Except PyError (List String)

/-- Python `repr` of the error list interpolated into failure messages. -/
def pyReprErrList (errs : List String) : String :=
  "[" ++ String.intercalate ", " (errs.map pyStrLitRepr) ++ "]"

/-- One `insert_rows_json` call followed by the source's `if errors: raise`
check, with the message prefix used at that call site. -/
def insertStep (sink : Sink) (table : String) (rows : List Dict) (msgPref : String) :
    Except PyError Unit :=
  match sink table rows with
  | .error e => .error e
  | .ok [] => .ok ()
  | .ok errs => .error ⟨"Exception", msgPref ++ pyReprErrList errs⟩

/-- The status/message derivation inlined in `load_to_bigquery` (the Outcome
Classifier): `parse_errors` is `max(rows_expected - rows_loaded, 0)`, which is
natural subtraction. -/
def classify_status (rows_expected rows_loaded : Nat) : String × Option String :=
  let parse_errors := rows_expected - rows_loaded
  let status := if parse_errors == 0 && decide (0 < rows_loaded) then "SUCCESS" else "PARTIAL"
  if rows_expected == 0 then ("FAILED", some "No non-empty rows found in file")
  else if rows_loaded == 0 then ("FAILED", some "No rows loaded from file")
  else if decide (0 < parse_errors) then
    (status, some ("Parsed " ++ toString rows_loaded ++ " of " ++ toString rows_expected ++ " rows"))
  else (status, none)

/-- Integer-second model of `(end_time - start_time).total_seconds()`. -/
def totalSecondsInt (a b : PyDateTime) : Int :=
  let toSec (t : PyDateTime) : Int :=
    (((t.year * 366 + t.month * 31 + t.day) * 24 + t.hour) * 60 + t.minute) * 60 + t.second
  toSec b - toSec a

/-- The success-path ledger row written at the end of `load_to_bigquery`. -/
def successLedgerRow (gcs_uri originating_filename : String) (start_time end_time : PyDateTime)
    (rows_expected rows_loaded : Nat) : Dict :=
  [("gcs_uri", .str gcs_uri),
   ("originating_filename", .str originating_filename),
   ("processed_timestamp", .str (isoformat end_time)),
   ("rows_loaded", .num (Int.ofNat rows_loaded)),
   ("rows_expected", .num (Int.ofNat rows_expected)),
   ("parse_errors", .num (Int.ofNat (rows_expected - rows_loaded))),
   ("status", .str (classify_status rows_expected rows_loaded).1),
   ("error_message", match (classify_status rows_expected rows_loaded).2 with
      | some m => .str m
      | none => .null),
   ("processing_duration_seconds", .num (totalSecondsInt start_time end_time))]

/-- A call performed against the sink: table id and row batch. -/
abbrev InsertCall := String × List Dict

/-- `load_to_bigquery(client, base_rows, archive_rows, gcs_uri,
originating_filename)` from `main.py`: base insert (skipped when empty),
archive insert (skipped when empty), then the ledger row; any failure raises.
The two `datetime.utcnow()` readings are the `start_time`/`end_time`
parameters.  Returns the outcome together with the trace of attempted insert
calls, in order. -/
def load_to_bigquery (sink : Sink) (base_rows archive_rows : List Dict)
    (gcs_uri originating_filename : String) (start_time end_time : PyDateTime) :
    Except PyError String × List InsertCall :=
  let baseCalls : List InsertCall := if base_rows.isEmpty then [] else [(FQ_BASE_TABLE, base_rows)]
  let baseRes := if base_rows.isEmpty then Except.ok ()
    else insertStep sink FQ_BASE_TABLE base_rows "Failed to insert into base table: "
  match baseRes with
  | .error e => (.error e, baseCalls)
  | .ok _ =>
      let archCalls := baseCalls ++
        (if archive_rows.isEmpty then [] else [(FQ_ARCHIVE_TABLE, archive_rows)])
      let archRes := if archive_rows.isEmpty then Except.ok ()
        else insertStep sink FQ_ARCHIVE_TABLE archive_rows "Failed to insert into archive table: "
      match archRes with
      | .error e => (.error e, archCalls)
      | .ok _ =>
          let rows_expected := archive_rows.length
          let rows_loaded := base_rows.length
          let processed_row := successLedgerRow gcs_uri originating_filename
            start_time end_time rows_expected rows_loaded
          let allCalls := archCalls ++ [(FQ_PROCESSED_TABLE, [processed_row])]
          match insertStep sink FQ_PROCESSED_TABLE [processed_row]
              "Failed to record processed file: " with
          | .error e => (.error e, allCalls)
          | .ok _ => (.ok (classify_status rows_expected rows_loaded).1, allCalls)

/-- `is_already_processed(client, gcs_uri)` from `main.py`: the ledger query
`SELECT 1 WHERE gcs_uri = @gcs_uri LIMIT 1` returns a row exactly when some
ledger entry has this `gcs_uri` — the entry's status is not consulted. -/
def is_already_processed (ledger : List Dict) (gcs_uri : String) : Bool :=
  ledger.any (fun r =>
    match List.lookup "gcs_uri" r with
    | some (.str u) => u == gcs_uri
    | _ => false)

/-- The parse loop of `process_ftplog`: accumulate base rows, archive rows
and the parse-error count over the non-blank lines; an uncaught exception
from `parse_json_line` aborts the whole loop. -/
def processLines (load_time : PyDateTime) (gcs_uri originating_filename : String) :
    List String → Except PyError (List Dict × List Dict × Nat)
  | [] => .ok ([], [], 0)
  | line :: rest =>
      match parse_json_line load_time line gcs_uri originating_filename with
      | .error e => .error e
      | .ok (baseRow?, archiveRow) =>
          match processLines load_time gcs_uri originating_filename rest with
          | .error e => .error e
          | .ok (bs, ars, k) =>
              .ok ((match baseRow? with
                    | some b => b :: bs
                    | none => bs),
                   archiveRow :: ars,
                   (match baseRow? with
                    | some _ => k
                    | none => k + 1))

/-- The degraded ledger row built in the `except` branch of `process_ftplog`:
only six keys — `rows_expected` and `parse_errors` are absent — and the error
text truncated to 1000 characters. -/
def failedLedgerRow (gcs_uri originating_filename : String) (now : PyDateTime)
    (errText : String) : Dict :=
  [("gcs_uri", .str gcs_uri),
   ("originating_filename", .str originating_filename),
   ("processed_timestamp", .str (isoformat now)),
   ("rows_loaded", .num 0),
   ("status", .str "FAILED"),
   ("error_message", .str (String.mk (errText.data.take 1000)))]

/-- Outcome of one `process_ftplog` invocation. -/
inductive ProcResult where
  | skipped : String → ProcResult
  | done : String → ProcResult
  | raised : PyError → ProcResult
deriving DecidableEq

/-- `process_ftplog(cloud_event)` from `main.py`, after the object content
has been fetched: path filter, placeholder filter, idempotency check, parse
loop, load, and the best-effort failure-ledger write.  `load_time` models the
per-line `datetime.utcnow()` readings (one constant clock), `t0`/`t1` the
readings inside `load_to_bigquery`, and `t2` the reading in the failure
branch.  The degraded insert's own outcome is ignored by the source (an
exception is swallowed, an error list is never inspected), so the sink's
response to it does not affect the result; the call is recorded in the
trace. -/
def process_ftplog (sink : Sink) (ledger : List Dict) (content : String)
    (load_time t0 t1 t2 : PyDateTime) (bucket objName : String) :
    ProcResult × List InsertCall :=
  let gcs_uri := "gs://" ++ bucket ++ "/" ++ objName
  if !filePatternMatch objName then (.skipped "non-target", [])
  else if pyEndsWith objName ".placeholder" then (.skipped "placeholder", [])
  else if is_already_processed ledger gcs_uri then (.skipped "already-processed", [])
  else
    let originating_filename := extract_originating_filename gcs_uri
    match processLines load_time gcs_uri originating_filename (splitLines content) with
    | .error e => (.raised e, [])
    | .ok (base_rows, archive_rows, _) =>
        match load_to_bigquery sink base_rows archive_rows gcs_uri originating_filename t0 t1 with
        | (.ok status, trace) => (.done status, trace)
        | (.error e, trace) =>
            (.raised e,
             trace ++ [(FQ_PROCESSED_TABLE, [failedLedgerRow gcs_uri originating_filename t2 e.msg])])

/-! Projections used to state the theorems. -/

/-- Is an `Except` a success. -/
def exceptOk {ε α : Type} : Except ε α → Bool
  | .ok _ => true
  | .error _ => false

/-- Number of archive rows in a parse-loop result. -/
def resArchiveCount (r : Except PyError (List Dict × List Dict × Nat)) : Option Nat :=
  match r with
  | .ok (_, ars, _) => some ars.length
  | .error _ => none

/-- Number of base rows in a parse-loop result. -/
def resBaseCount (r : Except PyError (List Dict × List Dict × Nat)) : Option Nat :=
  match r with
  | .ok (bs, _, _) => some bs.length
  | .error _ => none

/-- Parse-error counter of a parse-loop result. -/
def resParseErrors (r : Except PyError (List Dict × List Dict × Nat)) : Option Nat :=
  match r with
  | .ok (_, _, k) => some k
  | .error _ => none

/-- Base rows of a parse-loop result (empty on failure). -/
def resBase (r : Except PyError (List Dict × List Dict × Nat)) : List Dict :=
  match r with
  | .ok (bs, _, _) => bs
  | .error _ => []

/-- Archive rows of a parse-loop result (empty on failure). -/
def resArchive (r : Except PyError (List Dict × List Dict × Nat)) : List Dict :=
  match r with
  | .ok (_, ars, _) => ars
  | .error _ => []

/-- Lines whose JSON parsing fails (the `json.JSONDecodeError` branch). -/
def failedParseCount (lines : List String) : Nat :=
  (lines.filter (fun l => !exceptOk (jsonLoads l))).length

/-- All rows inserted into a given table over a call trace. -/
def insertedRows (trace : List InsertCall) (table : String) : List Dict :=
  ((trace.filter (fun c => c.1 == table)).map (fun c => c.2)).flatten

/-- Field of the first row inserted into the ledger table, if any. -/
def firstLedgerField (trace : List InsertCall) (field : String) : Option JsonValue :=
  (insertedRows trace FQ_PROCESSED_TABLE).head?.bind (fun r => List.lookup field r)

/-- A sink whose inserts always succeed. -/
def sinkAllOk : Sink := fun _ _ => .ok []

/-- The clock value used by the concrete witnesses. -/
def dt0 : PyDateTime := ⟨2026, 1, 28, 10, 30, 0, 0⟩

/-! Helper lemmas. -/

theorem strOrEmpty_of_falsy {v : JsonValue} (h : pyFalsy v = true) : strOrEmpty v = "" := by
  simp [strOrEmpty, h]

theorem dictGet_cons_self (d : Dict) (k : String) (v : JsonValue) :
    dictGet ((k, v) :: d) k = v := by
  simp [dictGet, List.lookup_cons]

theorem dictGet_cons_ne (d : Dict) (k k2 : String) (v : JsonValue) (h : k2 ≠ k) :
    dictGet ((k, v) :: d) k2 = dictGet d k2 := by
  simp only [dictGet, List.lookup_cons, beq_eq_false_iff_ne.mpr h]

theorem dictGet_of_lookup_none {d : Dict} {k : String} (h : List.lookup k d = none) :
    dictGet d k = JsonValue.null := by
  simp [dictGet, h]

/-! Claim theorems. -/

/-- C5: the Outcome Classifier maps `rows_expected = 0` to `FAILED`;
`rows_loaded = 0` with positive `rows_expected` to `FAILED` (not `PARTIAL`);
`0 < rows_loaded < rows_expected` to `PARTIAL`; `rows_loaded = rows_expected
> 0` to `SUCCESS`; concretely `(0,0)`, `(5,0)` map to `FAILED`, `(5,3)` to
`PARTIAL` and `(5,5)` to `SUCCESS`. -/
theorem claim5_classifier (e l : Nat) :
    (e = 0 → (classify_status e l).1 = "FAILED") ∧
    (0 < e → l = 0 → (classify_status e l).1 = "FAILED") ∧
    (0 < l → l < e → (classify_status e l).1 = "PARTIAL") ∧
    (0 < l → l = e → (classify_status e l).1 = "SUCCESS") ∧
    (classify_status 0 0).1 = "FAILED" ∧ (classify_status 5 0).1 = "FAILED" ∧
    (classify_status 5 3).1 = "PARTIAL" ∧ (classify_status 5 5).1 = "SUCCESS" := by
  refine ⟨?_, ?_, ?_, ?_, by decide, by decide, by decide, by decide⟩
  · intro he
    subst he
    simp [classify_status]
  · intro he hl
    subst hl
    simp only [classify_status]
    rw [if_neg (by simp; omega), if_pos (by simp)]
  · intro hl hlt
    simp only [classify_status]
    rw [if_neg (by simp; omega), if_neg (by simp; omega), if_pos (by simp; omega)]
    simp only [Prod.fst]
    rw [if_neg (by simp; omega)]
  · intro hl heq
    subst heq
    simp only [classify_status]
    rw [if_neg (by simp; omega), if_neg (by simp; omega), if_neg (by simp)]
    simp only [Prod.fst]
    rw [if_pos (by simp; omega)]

/-- Witness for C5 at the concrete boundary pair `(5, 3)`. -/
theorem claim5_classifier_witness :
    0 < (3 : Nat) ∧ (3 : Nat) < 5 ∧ (classify_status 5 3).1 = "PARTIAL" :=
  ⟨by decide, by decide, (claim5_classifier 5 3).2.2.1 (by decide) (by decide)⟩

/-- C7: the fingerprint is the SHA-256 hex digest of the five canonical
fields (event timestamp text, source, filename, byte count, user name)
joined in that order with a pipe, absent values rendering as the empty
string; hence two records agreeing on those five fields have equal
fingerprints regardless of every other field. -/
theorem claim7_fingerprint (d1 d2 : Dict)
    (h1 : dictGet d1 "EventDt" = dictGet d2 "EventDt")
    (h2 : dictGet d1 "Source" = dictGet d2 "Source")
    (h3 : dictGet d1 "Filename" = dictGet d2 "Filename")
    (h4 : dictGet d1 "Bytes" = dictGet d2 "Bytes")
    (h5 : dictGet d1 "UserName" = dictGet d2 "UserName") :
    compute_hash_fingerprint d1 = compute_hash_fingerprint d2 ∧
    compute_hash_fingerprint d1 = sha256hex (encodeUtf8 (canonicalFingerprintInput d1)) := by
  refine ⟨?_, rfl⟩
  unfold compute_hash_fingerprint canonicalFingerprintInput
  rw [h1, h2, h3, h4, h5]

/-- Two concrete records agreeing on the five canonical fields but differing
elsewhere (ordering, an extra field). -/
def claim7d1 : Dict :=
  [("EventDt", .str "2026-01-28T10:30:00"), ("Source", .str "FTP"), ("Bytes", .num 42)]

def claim7d2 : Dict :=
  [("Bytes", .num 42), ("Extra", .str "ignored"), ("Source", .str "FTP"),
   ("EventDt", .str "2026-01-28T10:30:00"), ("SessionId", .num 7)]

/-- Witness for C7 on two concrete records differing outside the five
canonical fields. -/
theorem claim7_fingerprint_witness :
    dictGet claim7d1 "EventDt" = dictGet claim7d2 "EventDt" ∧
    compute_hash_fingerprint claim7d1 = compute_hash_fingerprint claim7d2 :=
  ⟨rfl, (claim7_fingerprint claim7d1 claim7d2 rfl rfl rfl rfl rfl).1⟩

/-- C9: `compute_hash_fingerprint` collapses every falsy canonical field to
the empty string, so adding one of the five canonical keys with any falsy
value (number 0, empty string, `False`, `None`, ...) to a record that lacks
it leaves the fingerprint unchanged. -/
theorem claim9_falsy_collapse (d : Dict) (k : String) (v : JsonValue)
    (hk : k = "EventDt" ∨ k = "Source" ∨ k = "Filename" ∨ k = "Bytes" ∨ k = "UserName")
    (hv : pyFalsy v = true) (hd : List.lookup k d = none) :
    compute_hash_fingerprint ((k, v) :: d) = compute_hash_fingerprint d := by
  unfold compute_hash_fingerprint canonicalFingerprintInput
  have hself : strOrEmpty (dictGet ((k, v) :: d) k) = strOrEmpty (dictGet d k) := by
    rw [dictGet_cons_self, dictGet_of_lookup_none hd, strOrEmpty_of_falsy hv]
    rfl
  rcases hk with hk | hk | hk | hk | hk <;> subst hk <;>
    rw [hself] <;>
    rw [dictGet_cons_ne _ _ _ _ (by decide), dictGet_cons_ne _ _ _ _ (by decide),
      dictGet_cons_ne _ _ _ _ (by decide), dictGet_cons_ne _ _ _ _ (by decide)]

/-- Witness for C9: a record whose `Bytes` is the number 0 fingerprints
identically to the record without a `Bytes` field. -/
theorem claim9_falsy_collapse_witness :
    pyFalsy (.num 0) = true ∧
    List.lookup "Bytes" [("Source", JsonValue.str "FTP")] = none ∧
    compute_hash_fingerprint [("Bytes", .num 0), ("Source", .str "FTP")] =
      compute_hash_fingerprint [("Source", .str "FTP")] :=
  ⟨rfl, rfl,
   claim9_falsy_collapse [("Source", .str "FTP")] "Bytes" (.num 0)
     (Or.inr (Or.inr (Or.inr (Or.inl rfl)))) rfl rfl⟩

/-- The timestamp parser returns normally exactly on falsy or string
input. -/
theorem parse_event_timestamp_ok {v : JsonValue}
    (h : pyFalsy v = true ∨ ∃ s, v = .str s) :
    ∃ r, parse_event_timestamp v = .ok r := by
  rcases h with h | ⟨s, rfl⟩
  · exact ⟨none, by simp [parse_event_timestamp, h]⟩
  · by_cases hf : pyFalsy (JsonValue.str s) = true
    · exact ⟨none, by simp [parse_event_timestamp, hf]⟩
    · exact ⟨tryFormats strptimeFormats s, by
        simp only [parse_event_timestamp, if_neg hf]⟩

/-- C3 (corrected): the Line Transformer returns normally with the archive
record carrying the literal line text whenever the line fails JSON parsing
(absent structured record) or parses to a JSON object whose `EventDt` field
is absent, falsy or a string; but a line whose JSON parses to a non-object
value raises an uncaught `AttributeError` (see the counterexample), so the
transformer is not total. -/
theorem claim3_transformer (load_time : PyDateTime) (line gcs_uri fn : String) :
    (∀ e, jsonLoads line = .error e →
      parse_json_line load_time line gcs_uri fn =
        .ok (none, archiveRowOf load_time line gcs_uri fn)) ∧
    (∀ d, jsonLoads line = .ok (.obj d) →
      (pyFalsy (dictGet d "EventDt") = true ∨ ∃ s, dictGet d "EventDt" = .str s) →
      ∃ b, parse_json_line load_time line gcs_uri fn =
        .ok (some b, archiveRowOf load_time line gcs_uri fn)) ∧
    List.lookup "raw_json" (archiveRowOf load_time line gcs_uri fn) = some (.str line) := by
  refine ⟨?_, ?_, rfl⟩
  · intro e he
    simp [parse_json_line, he]
  · intro d hd hev
    obtain ⟨r, hr⟩ := parse_event_timestamp_ok hev
    exact ⟨baseRowOf load_time gcs_uri fn d r, by simp [parse_json_line, hd, hr]⟩

/-- Witness for C3 (corrected): a malformed line yields `(absent, archive)`;
an empty-object line yields `(present, archive)`. -/
theorem claim3_transformer_witness :
    parse_json_line dt0 "not json" "gs://b/logs/t.json" "t" =
      .ok (none, archiveRowOf dt0 "not json" "gs://b/logs/t.json" "t") ∧
    ∃ b, parse_json_line dt0 "\x7b\x7d" "gs://b/logs/t.json" "t" =
      .ok (some b, archiveRowOf dt0 "\x7b\x7d" "gs://b/logs/t.json" "t") :=
  ⟨(claim3_transformer dt0 "not json" "gs://b/logs/t.json" "t").1 "Expecting value" rfl,
   (claim3_transformer dt0 "\x7b\x7d" "gs://b/logs/t.json" "t").2.1 [] rfl (Or.inl rfl)⟩

/-- Counterexample to C3 as stated: the line `42` parses as JSON (to a
non-object), and the transformer raises an uncaught `AttributeError` instead
of returning an absent structured record with an archive record. -/
theorem claim3_counterexample :
    jsonLoads "42" = .ok (.num 42) ∧
    parse_json_line dt0 "42" "gs://b/logs/t.json" "t" =
      .error ⟨"AttributeError", attrErrorMsg (.num 42)⟩ :=
  ⟨rfl, rfl⟩

/-- C8 (corrected): for a line parsing to an object, when the `EventDt`
field's timestamp parse yields no value (absent, falsy, or a string matching
no recognized ISO-8601 variant), the structured record's `source_file_dt` is
the invocation's load time and its `event_dt` is null; when it parses to a
time, both fields carry that time.  (A truthy non-string `EventDt` instead
raises an uncaught `TypeError`; see the counterexample.) -/
theorem claim8_timestamp_fallback (load_time : PyDateTime) (line uri fn : String) (d : Dict)
    (hj : jsonLoads line = .ok (.obj d)) :
    (parse_event_timestamp (dictGet d "EventDt") = .ok none →
      parse_json_line load_time line uri fn =
        .ok (some (baseRowOf load_time uri fn d none), archiveRowOf load_time line uri fn) ∧
      List.lookup "source_file_dt" (baseRowOf load_time uri fn d none) =
        some (.str (isoformat load_time)) ∧
      List.lookup "event_dt" (baseRowOf load_time uri fn d none) = some .null) ∧
    (∀ t, parse_event_timestamp (dictGet d "EventDt") = .ok (some t) →
      parse_json_line load_time line uri fn =
        .ok (some (baseRowOf load_time uri fn d (some t)), archiveRowOf load_time line uri fn) ∧
      List.lookup "source_file_dt" (baseRowOf load_time uri fn d (some t)) =
        some (.str (isoformat t)) ∧
      List.lookup "event_dt" (baseRowOf load_time uri fn d (some t)) =
        some (.str (isoformat t))) := by
  constructor
  · intro hts
    exact ⟨by simp [parse_json_line, hj, hts], rfl, rfl⟩
  · intro t hts
    exact ⟨by simp [parse_json_line, hj, hts], rfl, rfl⟩

/-- Witness for C8 (corrected), on a line with an unparseable text timestamp
and a line with a well-formed one. -/
theorem claim8_timestamp_fallback_witness :
    (parse_json_line dt0 "\x7b\"EventDt\": \"garbage\"\x7d" "u" "f" =
      .ok (some (baseRowOf dt0 "u" "f" [("EventDt", .str "garbage")] none),
           archiveRowOf dt0 "\x7b\"EventDt\": \"garbage\"\x7d" "u" "f") ∧
     List.lookup "source_file_dt" (baseRowOf dt0 "u" "f" [("EventDt", .str "garbage")] none) =
       some (.str (isoformat dt0)) ∧
     List.lookup "event_dt" (baseRowOf dt0 "u" "f" [("EventDt", .str "garbage")] none) =
       some .null) ∧
    List.lookup "source_file_dt"
        (baseRowOf dt0 "u" "f" [("EventDt", .str "2026-01-28T10:30:00")] (some dt0)) =
      some (.str (isoformat dt0)) :=
  ⟨(claim8_timestamp_fallback dt0 "\x7b\"EventDt\": \"garbage\"\x7d" "u" "f"
      [("EventDt", .str "garbage")] rfl).1 rfl,
   ((claim8_timestamp_fallback dt0 "\x7b\"EventDt\": \"2026-01-28T10:30:00\"\x7d" "u" "f"
      [("EventDt", .str "2026-01-28T10:30:00")] rfl).2 dt0 rfl).2.1⟩

/-- Counterexample to C8 as stated: a successfully parsed line whose
`EventDt` is the (truthy, non-string) number 1 — a timestamp that certainly
parses under no recognized ISO-8601 variant — does not fall back to the load
time: the transformer raises an uncaught `TypeError`. -/
theorem claim8_counterexample :
    jsonLoads "\x7b\"EventDt\": 1\x7d" = .ok (.obj [("EventDt", .num 1)]) ∧
    parse_json_line dt0 "\x7b\"EventDt\": 1\x7d" "gs://b/logs/t.json" "t" =
      .error ⟨"TypeError", strptimeTypeErrorMsg (.num 1)⟩ :=
  ⟨rfl, rfl⟩

/-- A successful anchored match forces the `.json` suffix on the matched
text. -/
theorem matchesCore_json_suffix {cs : List Char} (h : matchesCore cs = true) :
    ".json".data <:+ cs := by
  simp only [matchesCore, Bool.and_eq_true, List.isSuffixOf_iff_suffix] at h
  exact h.1.1.2

/-- A nonempty suffix determines the last element. -/
theorem suffix_getLast_eq {l1 l2 : List Char} (h : l1 <:+ l2) (hne : l1 ≠ []) :
    l2.getLast? = l1.getLast? := by
  rw [List.getLast?_eq_getLast l2 (h.ne_nil hne), List.getLast?_eq_getLast l1 hne,
    List.IsSuffix.getLast h hne]

/-- A name accepted by the path pattern never carries the placeholder
suffix, so the placeholder check in `process_ftplog` is redundant. -/
theorem filePattern_not_placeholder {name : String} (h : filePatternMatch name = true) :
    pyEndsWith name ".placeholder" = false := by
  cases hb : pyEndsWith name ".placeholder"
  · rfl
  · exfalso
    have hsuf : ".placeholder".data <:+ name.data := by
      simpa only [pyEndsWith, List.isSuffixOf_iff_suffix] using hb
    have hlast : name.data.getLast? = some 'r' := by
      rw [suffix_getLast_eq hsuf (by decide)]
      rfl
    simp only [filePatternMatch, Bool.or_eq_true, Bool.and_eq_true, beq_iff_eq] at h
    rcases h with h | ⟨hnl, _⟩
    · have hsj : name.data.getLast? = some 'n' := by
        rw [suffix_getLast_eq (matchesCore_json_suffix h) (by decide)]
        rfl
      rw [hlast] at hsj
      exact absurd hsj (by decide)
    · rw [hlast] at hnl
      exact absurd hnl (by decide)

/-- C10 (corrected): the accept/reject decision in `process_ftplog` is fully
determined by the `FILE_PATTERN` match alone — the placeholder-suffix check
never rejects a name the pattern accepted, so the filter with the placeholder
check equals the filter without it.  However, a matching name need not end in
`.json`: Python's `$` also matches just before one trailing newline, so a
matching name ends in `.json` or in `.json` followed by a newline (see the
counterexample); either way it cannot end in `.placeholder`. -/
theorem claim10_filter (name : String) :
    ((filePatternMatch name && !pyEndsWith name ".placeholder") = filePatternMatch name) ∧
    (filePatternMatch name = true → pyEndsWith name ".placeholder" = false) ∧
    (filePatternMatch name = true →
      (pyEndsWith name ".json" || pyEndsWith name ".json\n") = true) := by
  have hph : filePatternMatch name = true → pyEndsWith name ".placeholder" = false :=
    fun h => filePattern_not_placeholder h
  refine ⟨?_, hph, ?_⟩
  · cases hp : filePatternMatch name
    · simp
    · simp [hph hp]
  · intro h
    simp only [filePatternMatch, Bool.or_eq_true, Bool.and_eq_true, beq_iff_eq] at h
    rcases h with h | ⟨hnl, hm⟩
    · have : pyEndsWith name ".json" = true := by
        simpa only [pyEndsWith, List.isSuffixOf_iff_suffix] using matchesCore_json_suffix h
      simp [this]
    · obtain ⟨t, ht⟩ := matchesCore_json_suffix hm
      have hconc : name.data.dropLast ++ ['\n'] = name.data :=
        List.dropLast_append_getLast? '\n' (by rw [hnl]; rfl)
      have : pyEndsWith name ".json\n" = true := by
        simp only [pyEndsWith, List.isSuffixOf_iff_suffix]
        refine ⟨t, ?_⟩
        have hd : (['.', 'j', 's', 'o', 'n', '\n'] : List Char) = ".json".data ++ ['\n'] := rfl
        rw [hd, ← List.append_assoc, ht, hconc]
      simp [this]

/-- Witness for C10 (corrected) on the accepted name `logs/sample.json`. -/
theorem claim10_filter_witness :
    filePatternMatch "logs/sample.json" = true ∧
    pyEndsWith "logs/sample.json" ".placeholder" = false :=
  ⟨by decide, (claim10_filter "logs/sample.json").2.1 (by decide)⟩

/-- Counterexample to C10 as stated: `logs/a.json` followed by a newline
matches `FILE_PATTERN` (Python `$` matches before a trailing newline) yet
does not end in `.json`. -/
theorem claim10_counterexample :
    filePatternMatch "logs/a.json\n" = true ∧
    pyEndsWith "logs/a.json\n" ".json" = false := by
  decide

/-- The ledger point-lookup succeeds exactly when some ledger row carries the
queried `gcs_uri` — whatever its status. -/
theorem is_already_processed_iff (ledger : List Dict) (uri : String) :
    is_already_processed ledger uri = true ↔
      ∃ r ∈ ledger, List.lookup "gcs_uri" r = some (.str uri) := by
  simp only [is_already_processed, List.any_eq_true]
  constructor
  · rintro ⟨r, hr, hp⟩
    refine ⟨r, hr, ?_⟩
    revert hp
    cases hl : List.lookup "gcs_uri" r with
    | none => simp
    | some v =>
        cases v <;> simp only [beq_iff_eq] <;> intro hp <;> first
          | exact absurd hp (by simp)
          | (rename_i u; subst hp; rfl)
  · rintro ⟨r, hr, hp⟩
    exact ⟨r, hr, by rw [hp]; simp⟩

/-- C2 (corrected): processing of an accepted file is skipped before any work
is done exactly when ANY Ledger Entry exists for the same `gcs_uri` — the
entry's status is never consulted, so a prior `FAILED` entry blocks
reprocessing just like a `SUCCESS` entry (see the counterexample). -/
theorem claim2_idempotency_gate (sink : Sink) (ledger : List Dict) (content : String)
    (load_time t0 t1 t2 : PyDateTime) (bucket objName : String)
    (hpat : filePatternMatch objName = true) :
    process_ftplog sink ledger content load_time t0 t1 t2 bucket objName =
        (.skipped "already-processed", []) ↔
      ∃ r ∈ ledger, List.lookup "gcs_uri" r =
        some (.str ("gs://" ++ bucket ++ "/" ++ objName)) := by
  rw [← is_already_processed_iff]
  unfold process_ftplog
  rw [hpat, filePattern_not_placeholder hpat]
  simp only [Bool.not_true, if_false]
  cases hi : is_already_processed ledger ("gs://" ++ bucket ++ "/" ++ objName) with
  | true => simp
  | false =>
      simp only [if_false, Bool.false_eq_true, iff_false]
      split
      · simp
      · split <;> simp

/-- Witness for C2 (corrected): with a single matching ledger entry the run
is skipped with no insert calls. -/
theorem claim2_idempotency_gate_witness :
    filePatternMatch "logs/t.json" = true ∧
    process_ftplog sinkAllOk [[("gcs_uri", .str "gs://b/logs/t.json")]] "\x7b\x7d"
        dt0 dt0 dt0 dt0 "b" "logs/t.json" =
      (.skipped "already-processed", []) :=
  ⟨by decide,
   (claim2_idempotency_gate sinkAllOk [[("gcs_uri", .str "gs://b/logs/t.json")]] "\x7b\x7d"
       dt0 dt0 dt0 dt0 "b" "logs/t.json" (by decide)).mpr
     ⟨[("gcs_uri", .str "gs://b/logs/t.json")], List.mem_singleton.mpr rfl, rfl⟩⟩

/-- The ledger used by the C2 counterexample: one entry for the file, with
status `FAILED`. -/
def claim2FailedLedger : List Dict :=
  [[("gcs_uri", .str "gs://b/logs/t.json"), ("status", .str "FAILED")]]

/-- Counterexample to C2 as stated: a prior Ledger Entry whose status is
`FAILED` does block reprocessing — the file is skipped with no work done. -/
theorem claim2_counterexample :
    List.lookup "status" (claim2FailedLedger.headD []) = some (.str "FAILED") ∧
    is_already_processed claim2FailedLedger "gs://b/logs/t.json" = true ∧
    process_ftplog sinkAllOk claim2FailedLedger "\x7b\x7d" dt0 dt0 dt0 dt0 "b" "logs/t.json" =
      (.skipped "already-processed", []) :=
  ⟨rfl, rfl, rfl⟩

theorem exceptOk_exists {ε α : Type} {x : Except ε α} (h : exceptOk x = true) :
    ∃ r, x = .ok r := by
  cases x with
  | error e => simp [exceptOk] at h
  | ok r => exact ⟨r, rfl⟩

/-- A normally-returning transform yields a structured record exactly when
the line's JSON parse succeeded. -/
theorem parse_json_line_isSome {lt : PyDateTime} {line uri fn : String}
    {b? : Option Dict} {a : Dict}
    (h : parse_json_line lt line uri fn = .ok (b?, a)) :
    b?.isSome = exceptOk (jsonLoads line) := by
  unfold parse_json_line at h
  split at h
  · rename_i e he
    injection h with h2
    injection h2 with hb ha
    subst hb
    rw [he]
    rfl
  · rename_i data hd
    split at h
    · split at h
      · exact absurd h (by simp)
      · injection h with h2
        injection h2 with hb ha
        subst hb
        rw [hd]
        rfl
    · exact absurd h (by simp)

theorem failedParseCount_nil : failedParseCount [] = 0 := rfl

theorem failedParseCount_cons (line : String) (rest : List String) :
    failedParseCount (line :: rest) =
      (if exceptOk (jsonLoads line) then 0 else 1) + failedParseCount rest := by
  simp only [failedParseCount, List.filter]
  cases exceptOk (jsonLoads line) <;> simp [Nat.add_comm]

/-- Counting invariant of the parse loop: archive rows cover every line, base
rows and the parse-error counter partition them, and the counter equals the
number of JSON-unparseable lines. -/
theorem processLines_counts (lt : PyDateTime) (uri fn : String) :
    ∀ (lines : List String) (bs ars : List Dict) (k : Nat),
      processLines lt uri fn lines = .ok (bs, ars, k) →
      ars.length = lines.length ∧ bs.length + k = lines.length ∧
        k = failedParseCount lines := by
  intro lines
  induction lines with
  | nil =>
      intro bs ars k h
      unfold processLines at h
      injection h with h2
      injection h2 with hb h3
      injection h3 with ha hk
      subst hb; subst ha; subst hk
      simp [failedParseCount]
  | cons line rest ih =>
      intro bs ars k h
      unfold processLines at h
      split at h
      · exact absurd h (by simp)
      · rename_i b? arow hline
        split at h
        · exact absurd h (by simp)
        · rename_i bs2 ars2 k2 hrest
          injection h with h2
          injection h2 with hb h3
          injection h3 with ha hk
          obtain ⟨ih1, ih2, ih3⟩ := ih bs2 ars2 k2 hrest
          have hsome := parse_json_line_isSome hline
          subst hb; subst ha; subst hk
          rw [failedParseCount_cons]
          cases b? with
          | some b =>
              simp only [Option.isSome] at hsome
              rw [← hsome]
              constructor
              · simp [ih1]
              · constructor
                · simp only [List.length_cons]
                  omega
                · simpa using ih3
          | none =>
              simp only [Option.isSome] at hsome
              rw [← hsome]
              refine ⟨by simp [ih1], by simp only [List.length_cons]; omega, ?_⟩
              simp only [Bool.false_eq_true, if_false]
              omega

/-- After the three gates pass and the parse loop succeeds, the processor is
the load dispatch plus the failure-ledger fallback. -/
theorem process_after_gates (sink : Sink) (ledger : List Dict) (content : String)
    (lt t0 t1 t2 : PyDateTime) (bucket objName : String)
    (bs ars : List Dict) (k : Nat)
    (hpat : filePatternMatch objName = true)
    (hled : is_already_processed ledger ("gs://" ++ bucket ++ "/" ++ objName) = false)
    (hparse : processLines lt ("gs://" ++ bucket ++ "/" ++ objName)
        (extract_originating_filename ("gs://" ++ bucket ++ "/" ++ objName))
        (splitLines content) = .ok (bs, ars, k)) :
    process_ftplog sink ledger content lt t0 t1 t2 bucket objName =
      (match load_to_bigquery sink bs ars ("gs://" ++ bucket ++ "/" ++ objName)
          (extract_originating_filename ("gs://" ++ bucket ++ "/" ++ objName)) t0 t1 with
       | (.ok status, trace) => (.done status, trace)
       | (.error e, trace) =>
           (.raised e,
            trace ++ [(FQ_PROCESSED_TABLE,
              [failedLedgerRow ("gs://" ++ bucket ++ "/" ++ objName)
                (extract_originating_filename ("gs://" ++ bucket ++ "/" ++ objName)) t2 e.msg])])) := by
  simp only [process_ftplog, hpat, filePattern_not_placeholder hpat, hled, hparse,
    Bool.not_true, Bool.false_eq_true, if_false]

/-- One insert step succeeding via an empty row-error list. -/
theorem insertStep_ok {sink : Sink} {table : String} {rows : List Dict} {m : String}
    (h : sink table rows = .ok []) : insertStep sink table rows m = .ok () := by
  simp [insertStep, h]

/-- One insert step failing via a nonempty row-error list. -/
theorem insertStep_errs {sink : Sink} {table : String} {rows : List Dict} {m : String}
    {errs : List String} (h : sink table rows = .ok errs) (hne : errs ≠ []) :
    insertStep sink table rows m = .error ⟨"Exception", m ++ pyReprErrList errs⟩ := by
  cases errs with
  | nil => exact absurd rfl hne
  | cons e es => simp [insertStep, h]

/-- Load dispatch under an always-succeeding sink: every stage passes and the
success ledger row is written. -/
theorem load_sinkAllOk (bs ars : List Dict) (uri fn : String) (t0 t1 : PyDateTime) :
    load_to_bigquery sinkAllOk bs ars uri fn t0 t1 =
      (.ok (classify_status ars.length bs.length).1,
       ((if bs.isEmpty then [] else [(FQ_BASE_TABLE, bs)]) ++
        (if ars.isEmpty then [] else [(FQ_ARCHIVE_TABLE, ars)])) ++
       [(FQ_PROCESSED_TABLE, [successLedgerRow uri fn t0 t1 ars.length bs.length])]) := by
  simp only [load_to_bigquery, insertStep, sinkAllOk, ite_self]

/-- Load dispatch when base and archive inserts succeed but the ledger row
insert reports errors: the raised exception carries the ledger failure text,
and all three insert calls are in the trace. -/
theorem load_ledger_error (sink : Sink) (bs ars : List Dict) (uri fn : String)
    (t0 t1 : PyDateTime) (errs : List String)
    (hbase : bs = [] ∨ sink FQ_BASE_TABLE bs = .ok [])
    (harch : ars = [] ∨ sink FQ_ARCHIVE_TABLE ars = .ok [])
    (hledger : sink FQ_PROCESSED_TABLE
        [successLedgerRow uri fn t0 t1 ars.length bs.length] = .ok errs)
    (herrs : errs ≠ []) :
    load_to_bigquery sink bs ars uri fn t0 t1 =
      (.error ⟨"Exception", "Failed to record processed file: " ++ pyReprErrList errs⟩,
       ((if bs.isEmpty then [] else [(FQ_BASE_TABLE, bs)]) ++
        (if ars.isEmpty then [] else [(FQ_ARCHIVE_TABLE, ars)])) ++
       [(FQ_PROCESSED_TABLE, [successLedgerRow uri fn t0 t1 ars.length bs.length])]) := by
  have hbase2 : (if bs.isEmpty then Except.ok () else
      insertStep sink FQ_BASE_TABLE bs "Failed to insert into base table: ") = Except.ok () := by
    rcases hbase with h | h
    · subst h; rfl
    · rw [insertStep_ok h, ite_self]
  have harch2 : (if ars.isEmpty then Except.ok () else
      insertStep sink FQ_ARCHIVE_TABLE ars "Failed to insert into archive table: ") =
        Except.ok () := by
    rcases harch with h | h
    · subst h; rfl
    · rw [insertStep_ok h, ite_self]
  simp only [load_to_bigquery, hbase2, harch2,
    insertStep_errs hledger herrs]

theorem process_gates_ok (sink : Sink) (ledger : List Dict) (content : String)
    (lt t0 t1 t2 : PyDateTime) (bucket objName : String)
    (bs ars : List Dict) (k : Nat) (st : String) (tr : List InsertCall)
    (hpat : filePatternMatch objName = true)
    (hled : is_already_processed ledger ("gs://" ++ bucket ++ "/" ++ objName) = false)
    (hparse : processLines lt ("gs://" ++ bucket ++ "/" ++ objName)
        (extract_originating_filename ("gs://" ++ bucket ++ "/" ++ objName))
        (splitLines content) = .ok (bs, ars, k))
    (hload : load_to_bigquery sink bs ars ("gs://" ++ bucket ++ "/" ++ objName)
        (extract_originating_filename ("gs://" ++ bucket ++ "/" ++ objName)) t0 t1 =
      (.ok st, tr)) :
    process_ftplog sink ledger content lt t0 t1 t2 bucket objName = (.done st, tr) := by
  rw [process_after_gates sink ledger content lt t0 t1 t2 bucket objName bs ars k
    hpat hled hparse, hload]

theorem process_gates_err (sink : Sink) (ledger : List Dict) (content : String)
    (lt t0 t1 t2 : PyDateTime) (bucket objName : String)
    (bs ars : List Dict) (k : Nat) (e : PyError) (tr : List InsertCall)
    (hpat : filePatternMatch objName = true)
    (hled : is_already_processed ledger ("gs://" ++ bucket ++ "/" ++ objName) = false)
    (hparse : processLines lt ("gs://" ++ bucket ++ "/" ++ objName)
        (extract_originating_filename ("gs://" ++ bucket ++ "/" ++ objName))
        (splitLines content) = .ok (bs, ars, k))
    (hload : load_to_bigquery sink bs ars ("gs://" ++ bucket ++ "/" ++ objName)
        (extract_originating_filename ("gs://" ++ bucket ++ "/" ++ objName)) t0 t1 =
      (.error e, tr)) :
    process_ftplog sink ledger content lt t0 t1 t2 bucket objName =
      (.raised e, tr ++ [(FQ_PROCESSED_TABLE,
        [failedLedgerRow ("gs://" ++ bucket ++ "/" ++ objName)
          (extract_originating_filename ("gs://" ++ bucket ++ "/" ++ objName)) t2 e.msg])]) := by
  rw [process_after_gates sink ledger content lt t0 t1 t2 bucket objName bs ars k
    hpat hled hparse, hload]

theorem beq_base_processed : (FQ_BASE_TABLE == FQ_PROCESSED_TABLE) = false := by decide

theorem beq_archive_processed : (FQ_ARCHIVE_TABLE == FQ_PROCESSED_TABLE) = false := by decide

theorem beq_processed_processed : (FQ_PROCESSED_TABLE == FQ_PROCESSED_TABLE) = true := by decide

theorem beq_base_base : (FQ_BASE_TABLE == FQ_BASE_TABLE) = true := by decide

theorem beq_archive_base : (FQ_ARCHIVE_TABLE == FQ_BASE_TABLE) = false := by decide

theorem beq_processed_base : (FQ_PROCESSED_TABLE == FQ_BASE_TABLE) = false := by decide

theorem beq_base_archive : (FQ_BASE_TABLE == FQ_ARCHIVE_TABLE) = false := by decide

theorem beq_archive_archive : (FQ_ARCHIVE_TABLE == FQ_ARCHIVE_TABLE) = true := by decide

theorem beq_processed_archive : (FQ_PROCESSED_TABLE == FQ_ARCHIVE_TABLE) = false := by decide

theorem insertedRows_nil (table : String) : insertedRows [] table = [] := rfl

theorem insertedRows_cons (c : InsertCall) (tr : List InsertCall) (table : String) :
    insertedRows (c :: tr) table =
      (if (c.1 == table) then c.2 else []) ++ insertedRows tr table := by
  simp only [insertedRows, List.filter]
  cases h : c.1 == table <;> simp

theorem insertedRows_append (tr1 tr2 : List InsertCall) (table : String) :
    insertedRows (tr1 ++ tr2) table = insertedRows tr1 table ++ insertedRows tr2 table := by
  simp [insertedRows, List.filter_append]

/-- Rows inserted per table over the three-call success trace. -/
theorem insertedRows_success_trace (bs ars : List Dict) (row : Dict) (table : String) :
    insertedRows (((if bs.isEmpty then [] else [(FQ_BASE_TABLE, bs)]) ++
        (if ars.isEmpty then [] else [(FQ_ARCHIVE_TABLE, ars)])) ++
        [(FQ_PROCESSED_TABLE, [row])]) table =
      ((if (FQ_BASE_TABLE == table) then bs else []) ++
       (if (FQ_ARCHIVE_TABLE == table) then ars else [])) ++
      (if (FQ_PROCESSED_TABLE == table) then [row] else []) := by
  cases hb : bs.isEmpty <;> cases ha : ars.isEmpty <;>
    simp_all [insertedRows_append, insertedRows_cons, insertedRows_nil, List.isEmpty_iff,
      ite_self]

theorem firstLedgerField_of_single {tr : List InsertCall} {row : Dict}
    (h : insertedRows tr FQ_PROCESSED_TABLE = [row]) (field : String) :
    firstLedgerField tr field = List.lookup field row := by
  simp [firstLedgerField, h]

theorem successLedgerRow_lookups (uri fn : String) (t0 t1 : PyDateTime) (re rl : Nat) :
    List.lookup "rows_expected" (successLedgerRow uri fn t0 t1 re rl) =
      some (.num (Int.ofNat re)) ∧
    List.lookup "rows_loaded" (successLedgerRow uri fn t0 t1 re rl) =
      some (.num (Int.ofNat rl)) ∧
    List.lookup "parse_errors" (successLedgerRow uri fn t0 t1 re rl) =
      some (.num (Int.ofNat (re - rl))) :=
  ⟨rfl, rfl, rfl⟩

/-- C4 (corrected): provided every non-blank line of the file either fails
JSON parsing or is transformed without an uncaught exception, the processor
produces exactly N archive records and N - K structured records for N
non-blank lines with K JSON-parse failures; under a successful sink exactly
those rows are inserted and the single ledger row records
`rows_expected = N`, `rows_loaded = N - K` and `parse_errors = K`.  Blank
lines are dropped before counting.  (Without the proviso the run can abort
with no inserts at all: see the counterexample.) -/
theorem claim4_counts (lt t0 t1 t2 : PyDateTime) (bucket objName content : String)
    (hpat : filePatternMatch objName = true)
    (hok : exceptOk (processLines lt ("gs://" ++ bucket ++ "/" ++ objName)
        (extract_originating_filename ("gs://" ++ bucket ++ "/" ++ objName))
        (splitLines content)) = true) :
    resArchiveCount (processLines lt ("gs://" ++ bucket ++ "/" ++ objName)
        (extract_originating_filename ("gs://" ++ bucket ++ "/" ++ objName))
        (splitLines content)) = some (splitLines content).length ∧
    resBaseCount (processLines lt ("gs://" ++ bucket ++ "/" ++ objName)
        (extract_originating_filename ("gs://" ++ bucket ++ "/" ++ objName))
        (splitLines content)) =
      some ((splitLines content).length - failedParseCount (splitLines content)) ∧
    resParseErrors (processLines lt ("gs://" ++ bucket ++ "/" ++ objName)
        (extract_originating_filename ("gs://" ++ bucket ++ "/" ++ objName))
        (splitLines content)) = some (failedParseCount (splitLines content)) ∧
    failedParseCount (splitLines content) ≤ (splitLines content).length ∧
    (∀ l ∈ splitLines content, l ≠ "") ∧
    (insertedRows (process_ftplog sinkAllOk [] content lt t0 t1 t2 bucket objName).2
      FQ_ARCHIVE_TABLE).length = (splitLines content).length ∧
    (insertedRows (process_ftplog sinkAllOk [] content lt t0 t1 t2 bucket objName).2
      FQ_BASE_TABLE).length =
      (splitLines content).length - failedParseCount (splitLines content) ∧
    (insertedRows (process_ftplog sinkAllOk [] content lt t0 t1 t2 bucket objName).2
      FQ_PROCESSED_TABLE).length = 1 ∧
    firstLedgerField (process_ftplog sinkAllOk [] content lt t0 t1 t2 bucket objName).2
      "rows_expected" = some (.num (Int.ofNat (splitLines content).length)) ∧
    firstLedgerField (process_ftplog sinkAllOk [] content lt t0 t1 t2 bucket objName).2
      "rows_loaded" = some (.num (Int.ofNat
        ((splitLines content).length - failedParseCount (splitLines content)))) ∧
    firstLedgerField (process_ftplog sinkAllOk [] content lt t0 t1 t2 bucket objName).2
      "parse_errors" = some (.num (Int.ofNat (failedParseCount (splitLines content)))) := by
  obtain ⟨⟨bs, ars, k⟩, heq⟩ := exceptOk_exists hok
  obtain ⟨c1, c2, c3⟩ := processLines_counts lt ("gs://" ++ bucket ++ "/" ++ objName)
    (extract_originating_filename ("gs://" ++ bucket ++ "/" ++ objName))
    (splitLines content) bs ars k heq
  have hKN : failedParseCount (splitLines content) ≤ (splitLines content).length := by omega
  have hbs : bs.length = (splitLines content).length - failedParseCount (splitLines content) := by
    omega
  have hrun := process_gates_ok sinkAllOk [] content lt t0 t1 t2 bucket objName bs ars k
    (classify_status ars.length bs.length).1
    (((if bs.isEmpty then [] else [(FQ_BASE_TABLE, bs)]) ++
      (if ars.isEmpty then [] else [(FQ_ARCHIVE_TABLE, ars)])) ++
      [(FQ_PROCESSED_TABLE, [successLedgerRow ("gs://" ++ bucket ++ "/" ++ objName)
        (extract_originating_filename ("gs://" ++ bucket ++ "/" ++ objName)) t0 t1
        ars.length bs.length])])
    hpat rfl heq (load_sinkAllOk bs ars ("gs://" ++ bucket ++ "/" ++ objName)
      (extract_originating_filename ("gs://" ++ bucket ++ "/" ++ objName)) t0 t1)
  obtain ⟨s1, s2, s3⟩ := successLedgerRow_lookups ("gs://" ++ bucket ++ "/" ++ objName)
    (extract_originating_filename ("gs://" ++ bucket ++ "/" ++ objName)) t0 t1
    ars.length bs.length
  have iARCH := insertedRows_success_trace bs ars
    (successLedgerRow ("gs://" ++ bucket ++ "/" ++ objName)
      (extract_originating_filename ("gs://" ++ bucket ++ "/" ++ objName)) t0 t1
      ars.length bs.length) FQ_ARCHIVE_TABLE
  have iBASE := insertedRows_success_trace bs ars
    (successLedgerRow ("gs://" ++ bucket ++ "/" ++ objName)
      (extract_originating_filename ("gs://" ++ bucket ++ "/" ++ objName)) t0 t1
      ars.length bs.length) FQ_BASE_TABLE
  have iPROC := insertedRows_success_trace bs ars
    (successLedgerRow ("gs://" ++ bucket ++ "/" ++ objName)
      (extract_originating_filename ("gs://" ++ bucket ++ "/" ++ objName)) t0 t1
      ars.length bs.length) FQ_PROCESSED_TABLE
  simp only [beq_base_archive, beq_archive_archive, beq_processed_archive,
    Bool.false_eq_true, if_false, if_true, List.nil_append, List.append_nil] at iARCH
  simp only [beq_base_base, beq_archive_base, beq_processed_base,
    Bool.false_eq_true, if_false, if_true, List.nil_append, List.append_nil] at iBASE
  simp only [beq_base_processed, beq_archive_processed, beq_processed_processed,
    Bool.false_eq_true, if_false, if_true, List.nil_append, List.append_nil] at iPROC
  refine ⟨by rw [heq]; simpa [resArchiveCount] using c1,
    by rw [heq]; simpa [resBaseCount] using hbs,
    by rw [heq]; simpa [resParseErrors] using c3,
    hKN,
    ?_, ?_, ?_, ?_, ?_, ?_, ?_⟩
  · intro l hl
    have := (List.mem_filter.mp hl).2
    simpa using this
  · rw [hrun, iARCH]
    exact c1
  · rw [hrun, iBASE]
    exact hbs
  · rw [hrun, iPROC]
    rfl
  · rw [hrun, firstLedgerField_of_single iPROC, s1, c1]
  · rw [hrun, firstLedgerField_of_single iPROC, s2, hbs]
  · rw [hrun, firstLedgerField_of_single iPROC, s3]
    have hk : ars.length - bs.length = failedParseCount (splitLines content) := by omega
    rw [hk]

/-- Witness for C4 (corrected) on a two-line file (one valid object, one
malformed line): N = 2, K = 1. -/
theorem claim4_counts_witness :
    filePatternMatch "logs/t.json" = true ∧
    exceptOk (processLines dt0 ("gs://" ++ "b" ++ "/" ++ "logs/t.json")
      (extract_originating_filename ("gs://" ++ "b" ++ "/" ++ "logs/t.json"))
      (splitLines "\x7b\x7d\nnot json")) = true ∧
    (splitLines "\x7b\x7d\nnot json").length = 2 ∧
    failedParseCount (splitLines "\x7b\x7d\nnot json") = 1 ∧
    firstLedgerField
        (process_ftplog sinkAllOk [] "\x7b\x7d\nnot json" dt0 dt0 dt0 dt0 "b" "logs/t.json").2
        "rows_expected" =
      some (.num (Int.ofNat (splitLines "\x7b\x7d\nnot json").length)) ∧
    firstLedgerField
        (process_ftplog sinkAllOk [] "\x7b\x7d\nnot json" dt0 dt0 dt0 dt0 "b" "logs/t.json").2
        "parse_errors" =
      some (.num (Int.ofNat (failedParseCount (splitLines "\x7b\x7d\nnot json")))) :=
  ⟨by decide, rfl, rfl, rfl,
   (claim4_counts dt0 dt0 dt0 dt0 "b" "logs/t.json" "\x7b\x7d\nnot json"
     (by decide) rfl).2.2.2.2.2.2.2.2.1,
   (claim4_counts dt0 dt0 dt0 dt0 "b" "logs/t.json" "\x7b\x7d\nnot json"
     (by decide) rfl).2.2.2.2.2.2.2.2.2.2⟩

/-- Counterexample to C4 as stated: the one-line file `[1, 2]` has N = 1
non-blank lines and K = 0 JSON-parse failures, yet the processor makes no
insert at all — it aborts with an uncaught `AttributeError` — instead of
producing one archive record and a ledger row with `rows_expected = 1`. -/
theorem claim4_counterexample :
    (splitLines "[1, 2]").length = 1 ∧
    failedParseCount (splitLines "[1, 2]") = 0 ∧
    process_ftplog sinkAllOk [] "[1, 2]" dt0 dt0 dt0 dt0 "b" "logs/t.json" =
      (.raised ⟨"AttributeError", attrErrorMsg (.arr [.num 1, .num 2])⟩, []) :=
  ⟨rfl, rfl, rfl⟩

/-- C6 (corrected): on any exception in the load stage, the processor
attempts a best-effort degraded ledger write whose status is `FAILED`, whose
`rows_loaded` is 0, and whose error message is the original error text
truncated to at most 1000 characters; the degraded write's own outcome is
never consulted (the statement holds for every sink response to it) and the
original load error is re-raised.  However the degraded row carries no
`rows_expected` or `parse_errors` fields at all — those "counts" are absent
(null), not zero (see the counterexample). -/
theorem claim6_degraded_ledger (sink : Sink) (ledger : List Dict) (content : String)
    (lt t0 t1 t2 : PyDateTime) (bucket objName : String)
    (bs ars : List Dict) (k : Nat) (e : PyError) (tr : List InsertCall)
    (hpat : filePatternMatch objName = true)
    (hled : is_already_processed ledger ("gs://" ++ bucket ++ "/" ++ objName) = false)
    (hparse : processLines lt ("gs://" ++ bucket ++ "/" ++ objName)
        (extract_originating_filename ("gs://" ++ bucket ++ "/" ++ objName))
        (splitLines content) = .ok (bs, ars, k))
    (hload : load_to_bigquery sink bs ars ("gs://" ++ bucket ++ "/" ++ objName)
        (extract_originating_filename ("gs://" ++ bucket ++ "/" ++ objName)) t0 t1 =
      (.error e, tr)) :
    process_ftplog sink ledger content lt t0 t1 t2 bucket objName =
      (.raised e, tr ++ [(FQ_PROCESSED_TABLE,
        [failedLedgerRow ("gs://" ++ bucket ++ "/" ++ objName)
          (extract_originating_filename ("gs://" ++ bucket ++ "/" ++ objName)) t2 e.msg])]) ∧
    List.lookup "rows_loaded" (failedLedgerRow ("gs://" ++ bucket ++ "/" ++ objName)
      (extract_originating_filename ("gs://" ++ bucket ++ "/" ++ objName)) t2 e.msg) =
      some (.num 0) ∧
    List.lookup "status" (failedLedgerRow ("gs://" ++ bucket ++ "/" ++ objName)
      (extract_originating_filename ("gs://" ++ bucket ++ "/" ++ objName)) t2 e.msg) =
      some (.str "FAILED") ∧
    List.lookup "error_message" (failedLedgerRow ("gs://" ++ bucket ++ "/" ++ objName)
      (extract_originating_filename ("gs://" ++ bucket ++ "/" ++ objName)) t2 e.msg) =
      some (.str (String.mk (e.msg.data.take 1000))) ∧
    (String.mk (e.msg.data.take 1000)).length ≤ 1000 ∧
    List.lookup "rows_expected" (failedLedgerRow ("gs://" ++ bucket ++ "/" ++ objName)
      (extract_originating_filename ("gs://" ++ bucket ++ "/" ++ objName)) t2 e.msg) = none ∧
    List.lookup "parse_errors" (failedLedgerRow ("gs://" ++ bucket ++ "/" ++ objName)
      (extract_originating_filename ("gs://" ++ bucket ++ "/" ++ objName)) t2 e.msg) = none := by
  refine ⟨process_gates_err sink ledger content lt t0 t1 t2 bucket objName bs ars k e tr
    hpat hled hparse hload, rfl, rfl, rfl, ?_, rfl, rfl⟩
  rw [show (String.mk (e.msg.data.take 1000)).length = (e.msg.data.take 1000).length from rfl,
    List.length_take]
  exact min_le_left _ _

/-- Projections used by concrete witnesses (avoiding literal fingerprint
strings in statements). -/
def resTriple (r : Except PyError (List Dict × List Dict × Nat)) :
    List Dict × List Dict × Nat :=
  match r with
  | .ok t => t
  | .error _ => ([], [], 0)

def errOf (r : Except PyError String) : PyError :=
  match r with
  | .error e => e
  | .ok _ => ⟨"", ""⟩

/-- A sink whose archive-table inserts report a row error. -/
def claim6Sink : Sink := fun tbl _ =>
  if tbl == FQ_ARCHIVE_TABLE then .ok ["quota exceeded"] else .ok []

/-- Shorthands for the C6 witness scenario: the parse-loop products and the
load outcome for the one-line file under `claim6Sink`. -/
def c6bs : List Dict :=
  (resTriple (processLines dt0 "gs://b/logs/t.json"
    (extract_originating_filename "gs://b/logs/t.json") (splitLines "\x7b\x7d"))).1

def c6ars : List Dict :=
  (resTriple (processLines dt0 "gs://b/logs/t.json"
    (extract_originating_filename "gs://b/logs/t.json") (splitLines "\x7b\x7d"))).2.1

def c6k : Nat :=
  (resTriple (processLines dt0 "gs://b/logs/t.json"
    (extract_originating_filename "gs://b/logs/t.json") (splitLines "\x7b\x7d"))).2.2

def c6load : Except PyError String × List InsertCall :=
  load_to_bigquery claim6Sink c6bs c6ars "gs://b/logs/t.json"
    (extract_originating_filename "gs://b/logs/t.json") dt0 dt0

/-- Witness for C6 (corrected): an archive-insert failure on a one-line file
is re-raised after the degraded write attempt. -/
theorem claim6_degraded_ledger_witness :
    process_ftplog claim6Sink [] "\x7b\x7d" dt0 dt0 dt0 dt0 "b" "logs/t.json" =
      (.raised (errOf c6load.1),
       c6load.2 ++ [(FQ_PROCESSED_TABLE,
         [failedLedgerRow "gs://b/logs/t.json"
           (extract_originating_filename "gs://b/logs/t.json") dt0 (errOf c6load.1).msg])]) :=
  (claim6_degraded_ledger claim6Sink [] "\x7b\x7d" dt0 dt0 dt0 dt0 "b" "logs/t.json"
    c6bs c6ars c6k (errOf c6load.1) c6load.2 (by decide) rfl rfl rfl).1

/-- A sink whose base-table inserts report a row error. -/
def claim6FailBaseSink : Sink := fun tbl _ =>
  if tbl == FQ_BASE_TABLE then .ok ["disk full"] else .ok []

/-- Counterexample to C6 as stated: in the degraded ledger row written after
a base-insert failure, `rows_expected` and `parse_errors` are not zero — the
fields are absent entirely (null); only `rows_loaded` is written as 0. -/
theorem claim6_counterexample :
    (process_ftplog claim6FailBaseSink [] "\x7b\x7d" dt0 dt0 dt0 dt0 "b" "logs/t.json").1 =
      .raised ⟨"Exception",
        "Failed to insert into base table: " ++ pyReprErrList ["disk full"]⟩ ∧
    firstLedgerField
      (process_ftplog claim6FailBaseSink [] "\x7b\x7d" dt0 dt0 dt0 dt0 "b" "logs/t.json").2
      "rows_expected" = none ∧
    firstLedgerField
      (process_ftplog claim6FailBaseSink [] "\x7b\x7d" dt0 dt0 dt0 dt0 "b" "logs/t.json").2
      "parse_errors" = none ∧
    firstLedgerField
      (process_ftplog claim6FailBaseSink [] "\x7b\x7d" dt0 dt0 dt0 dt0 "b" "logs/t.json").2
      "rows_loaded" = some (.num 0) ∧
    firstLedgerField
      (process_ftplog claim6FailBaseSink [] "\x7b\x7d" dt0 dt0 dt0 dt0 "b" "logs/t.json").2
      "status" = some (.str "FAILED") :=
  ⟨rfl, rfl, rfl, rfl, rfl⟩

/-- C1 (corrected): when the base and archive inserts succeed but the
success-path ledger insert reports errors, the raised exception does surface
to the caller — but not before the processor attempts the fallback degraded
`FAILED` ledger write: the `except` handler in `process_ftplog` wraps the
whole of `load_to_bigquery`, ledger write included, so the final trace entry
is a second `processed_files` insert carrying a `FAILED` row. -/
theorem claim1_ledger_failure (sink : Sink) (ledger : List Dict) (content : String)
    (lt t0 t1 t2 : PyDateTime) (bucket objName : String)
    (bs ars : List Dict) (k : Nat) (errs : List String)
    (hpat : filePatternMatch objName = true)
    (hled : is_already_processed ledger ("gs://" ++ bucket ++ "/" ++ objName) = false)
    (hparse : processLines lt ("gs://" ++ bucket ++ "/" ++ objName)
        (extract_originating_filename ("gs://" ++ bucket ++ "/" ++ objName))
        (splitLines content) = .ok (bs, ars, k))
    (hbase : bs = [] ∨ sink FQ_BASE_TABLE bs = .ok [])
    (harch : ars = [] ∨ sink FQ_ARCHIVE_TABLE ars = .ok [])
    (hledger : sink FQ_PROCESSED_TABLE
        [successLedgerRow ("gs://" ++ bucket ++ "/" ++ objName)
          (extract_originating_filename ("gs://" ++ bucket ++ "/" ++ objName)) t0 t1
          ars.length bs.length] = .ok errs)
    (herrs : errs ≠ []) :
    process_ftplog sink ledger content lt t0 t1 t2 bucket objName =
      (.raised ⟨"Exception", "Failed to record processed file: " ++ pyReprErrList errs⟩,
       (((if bs.isEmpty then [] else [(FQ_BASE_TABLE, bs)]) ++
         (if ars.isEmpty then [] else [(FQ_ARCHIVE_TABLE, ars)])) ++
        [(FQ_PROCESSED_TABLE,
          [successLedgerRow ("gs://" ++ bucket ++ "/" ++ objName)
            (extract_originating_filename ("gs://" ++ bucket ++ "/" ++ objName)) t0 t1
            ars.length bs.length])]) ++
       [(FQ_PROCESSED_TABLE,
         [failedLedgerRow ("gs://" ++ bucket ++ "/" ++ objName)
           (extract_originating_filename ("gs://" ++ bucket ++ "/" ++ objName)) t2
           ("Failed to record processed file: " ++ pyReprErrList errs)])]) ∧
    List.lookup "status" (failedLedgerRow ("gs://" ++ bucket ++ "/" ++ objName)
      (extract_originating_filename ("gs://" ++ bucket ++ "/" ++ objName)) t2
      ("Failed to record processed file: " ++ pyReprErrList errs)) = some (.str "FAILED") ∧
    List.lookup "rows_loaded" (failedLedgerRow ("gs://" ++ bucket ++ "/" ++ objName)
      (extract_originating_filename ("gs://" ++ bucket ++ "/" ++ objName)) t2
      ("Failed to record processed file: " ++ pyReprErrList errs)) = some (.num 0) :=
  ⟨process_gates_err sink ledger content lt t0 t1 t2 bucket objName bs ars k
    ⟨"Exception", "Failed to record processed file: " ++ pyReprErrList errs⟩
    (((if bs.isEmpty then [] else [(FQ_BASE_TABLE, bs)]) ++
      (if ars.isEmpty then [] else [(FQ_ARCHIVE_TABLE, ars)])) ++
     [(FQ_PROCESSED_TABLE,
       [successLedgerRow ("gs://" ++ bucket ++ "/" ++ objName)
         (extract_originating_filename ("gs://" ++ bucket ++ "/" ++ objName)) t0 t1
         ars.length bs.length])])
    hpat hled hparse
    (load_ledger_error sink bs ars ("gs://" ++ bucket ++ "/" ++ objName)
      (extract_originating_filename ("gs://" ++ bucket ++ "/" ++ objName)) t0 t1 errs
      hbase harch hledger herrs),
   rfl, rfl⟩

/-- A sink that fails (with a row-error list) exactly the inserts into the
ledger table whose rows carry a `rows_expected` field — i.e. the success-path
ledger row, but not the degraded failure row. -/
def claim1Sink : Sink := fun tbl rows =>
  if tbl == FQ_PROCESSED_TABLE &&
      rows.any (fun r => (List.lookup "rows_expected" r).isSome) then
    .ok ["ledger down"]
  else .ok []

/-- Shorthands for the C1 witness scenario. -/
def c1bs : List Dict :=
  (resTriple (processLines dt0 "gs://b/logs/t.json"
    (extract_originating_filename "gs://b/logs/t.json") (splitLines "\x7b\x7d"))).1

def c1ars : List Dict :=
  (resTriple (processLines dt0 "gs://b/logs/t.json"
    (extract_originating_filename "gs://b/logs/t.json") (splitLines "\x7b\x7d"))).2.1

def c1k : Nat :=
  (resTriple (processLines dt0 "gs://b/logs/t.json"
    (extract_originating_filename "gs://b/logs/t.json") (splitLines "\x7b\x7d"))).2.2

/-- Witness for C1 (corrected): concrete run in which only the success-path
ledger insert fails. -/
theorem claim1_ledger_failure_witness :
    process_ftplog claim1Sink [] "\x7b\x7d" dt0 dt0 dt0 dt0 "b" "logs/t.json" =
      (.raised ⟨"Exception",
         "Failed to record processed file: " ++ pyReprErrList ["ledger down"]⟩,
       (((if c1bs.isEmpty then [] else [(FQ_BASE_TABLE, c1bs)]) ++
         (if c1ars.isEmpty then [] else [(FQ_ARCHIVE_TABLE, c1ars)])) ++
        [(FQ_PROCESSED_TABLE,
          [successLedgerRow "gs://b/logs/t.json"
            (extract_originating_filename "gs://b/logs/t.json") dt0 dt0
            c1ars.length c1bs.length])]) ++
       [(FQ_PROCESSED_TABLE,
         [failedLedgerRow "gs://b/logs/t.json"
           (extract_originating_filename "gs://b/logs/t.json") dt0
           ("Failed to record processed file: " ++ pyReprErrList ["ledger down"])])]) :=
  (claim1_ledger_failure claim1Sink [] "\x7b\x7d" dt0 dt0 dt0 dt0 "b" "logs/t.json"
    c1bs c1ars c1k ["ledger down"] (by decide) rfl rfl
    (Or.inr rfl) (Or.inr rfl) rfl (by decide)).1

/-- Counterexample to C1 as stated: with base and archive inserts succeeding
and the success-path ledger insert failing, the last trace entry of the run
is an attempted degraded `FAILED` ledger write — the claim says no such
fallback write is attempted.  The original ledger error is still re-raised. -/
theorem claim1_counterexample :
    (process_ftplog claim1Sink [] "\x7b\x7d" dt0 dt0 dt0 dt0 "b" "logs/s.json").1 =
      .raised ⟨"Exception",
        "Failed to record processed file: " ++ pyReprErrList ["ledger down"]⟩ ∧
    (process_ftplog claim1Sink [] "\x7b\x7d" dt0 dt0 dt0 dt0 "b" "logs/s.json").2.getLast? =
      some (FQ_PROCESSED_TABLE,
        [failedLedgerRow "gs://b/logs/s.json"
          (extract_originating_filename "gs://b/logs/s.json") dt0
          ("Failed to record processed file: " ++ pyReprErrList ["ledger down"])]) ∧
    List.lookup "status"
      (failedLedgerRow "gs://b/logs/s.json"
        (extract_originating_filename "gs://b/logs/s.json") dt0
        ("Failed to record processed file: " ++ pyReprErrList ["ledger down"])) =
      some (.str "FAILED") :=
  ⟨rfl, rfl, rfl⟩

end FtpLog
